import Mathlib

/-!
Verification of the commitment-challenge game engine (game lifecycle state
machine, settlement arithmetic, checkpoint verification workflow).

The embedding translates the TypeScript sources:
 - `src/services/GameService.ts` (commands: createGame, joinGame, startGame,
   submitCheckIn, verifyCheckIn / verifyCheckInWithAI, cashOut, endGame),
 - the entity store (`GameStorage`, the `*UncheckedMut` mutation primitives),
 - `src/types/index.ts` (data model and the Zod input schemas).

Modelling conventions:
 - The entity store is keyed by game id and no command touches more than one
   game, so the state is the single `Game` record; the `GAME_NOT_FOUND`
   branches (which concern a different id) disappear.
 - `Date` values are integer timestamps (milliseconds); `new Date()` becomes
   an explicit `now : Int` argument of each command.
 - Monetary amounts are `Int` (the source stores integer cents);
   `Math.floor(a / b)` on integers is `mathFloorDiv`.
 - `uuidv4()` becomes explicit id parameters; freshness of a generated
   check-in id is a hypothesis of the step relation.
 - The AI provider call is an oracle parameter `llmResult : Except String
   LLMResponse` (the `Result` that `LLM.verifyCheckIn` returns: transport
   and parse failures are its `error` case), and the presence of the
   configured API key is the parameter `apiKeyConfigured`.
 - Zod input validation runs before each command body; constraints the
   command logic relies on (`multiplier ≥ 1`, `checkpointNumber ≥ 1`,
   `CreateGameSchema` refinements) appear as hypotheses of the step
   relation, mirroring "the core never receives raw untyped input".
 - Display-only strings (transaction descriptions, money formatting) are
   abstracted to fixed labels; fields never read by any code path
   (`gameType`, `description`, media payload structure) are dropped, and a
   proof payload is an opaque `String`.
-/

namespace ComGame

deriving instance DecidableEq for Except

/-- Check-in verification status (`CheckInStatusSchema`). -/
inductive CheckInStatus
  | PENDING
  | APPROVED
  | REJECTED
  deriving DecidableEq, Repr

/-- Who verified a check-in (`CheckIn.verifiedBy`). -/
inductive VerifierKind
  | GAMEMASTER
  | AI
  | TIMEOUT_APPROVAL
  deriving DecidableEq, Repr

/-- Game lifecycle state (`GameStateSchema`). -/
inductive GameState
  | WAITING_FOR_PLAYERS
  | IN_PROGRESS
  | ENDED
  | CANCELLED
  | ABORTED_MID_GAME
  deriving DecidableEq, Repr

/-- Ledger transaction type (`TransactionType`). The extra
`BONUS_POOL_CLEARED` constructor appears only in the spec-modelled abort
flow (the architecture document's abort example uses a
`BONUS_POOL_CLEARED`-style transaction; the enum of `types/index.ts` has
only the first four). -/
inductive TransactionType
  | INITIAL_STAKE
  | CASHOUT
  | PAYOUT
  | REFUND
  | BONUS_POOL_CLEARED
  deriving DecidableEq, Repr

/-- How check-ins of a game are verified (`VerificationMethod`). -/
inductive VerificationMethod
  | GAMEMASTER
  | AI
  deriving DecidableEq, Repr

/-- A checkpoint of a game (`CheckpointSchema`); proof exemplars are opaque. -/
structure Checkpoint where
  description : String
  expiryDate : Int
  sampleApproval : Option String := none
  sampleRejection : Option String := none
  deriving DecidableEq, Repr, Inhabited

/-- A player inside a game (`Player`). -/
structure Player where
  id : Nat
  name : String
  multiplier : Int
  foldedAtCheckpoint : Option Nat := none
  bonusWon : Option Int := none
  joinedAt : Int
  checkpointsCompleted : Nat
  deriving DecidableEq, Repr

/-- A check-in record (`CheckIn`). -/
structure CheckIn where
  id : Nat
  playerId : Nat
  checkpointNumber : Nat
  proof : String
  submittedAt : Int
  status : CheckInStatus
  verifiedAt : Option Int := none
  verifiedBy : Option VerifierKind := none
  aiConfidence : Option ℚ := none
  notes : Option String := none
  deriving DecidableEq, Repr

/-- An immutable ledger record (`Transaction`). -/
structure Transaction where
  id : Nat
  playerId : Nat
  type : TransactionType
  amount : Int
  timestamp : Int
  description : String
  deriving DecidableEq, Repr

/-- AI verification settings (`AIVerificationSchema`), opaque except presence. -/
structure AIVerification where
  prompt : String
  trustThreshold : Int
  deriving DecidableEq, Repr

/-- The state of one game, exactly the mutable record the entity store holds
(`Game` of `types/index.ts`). -/
structure Game where
  id : Nat
  gameMasterId : Nat
  title : String
  stackSize : Int
  maxMultiplier : Int
  maxPlayers : Nat
  minPlayers : Nat
  startDate : Int
  endDate : Int
  checkpoints : List Checkpoint
  verificationMethod : VerificationMethod
  aiVerification : Option AIVerification
  objective : String
  playerAction : String
  rewardDescription : String
  failureCondition : String
  forceCashoutOnMiss : Bool
  state : GameState
  players : List Player
  checkIns : List CheckIn
  transactions : List Transaction
  totalPool : Int
  totalCashouts : Int
  bonusPool : Int
  endedAt : Option Int := none
  deriving DecidableEq, Repr

/-- The AI Decision Provider's decision enum (`LLMResponseSchema.decision`). -/
inductive LLMDecision
  | APPROVED
  | REJECTED
  | NEEDS_REVIEW
  | INVALID_SUBMISSION
  deriving DecidableEq, Repr

/-- A parsed, schema-valid provider response (`LLMResponse`). -/
structure LLMResponse where
  decision : LLMDecision
  reasoning : String
  confidence : ℚ
  deriving DecidableEq, Repr

/-- The typed domain errors the commands return (`utils/errors.ts` factories
actually used by `GameService`). -/
inductive GameErr
  | GAME_ALREADY_STARTED
  | TOO_MANY_PLAYERS
  | PLAYER_ALREADY_JOINED (playerId : Nat)
  | INVALID_MULTIPLIER
  | UNAUTHORIZED_GAME_MASTER (callerId : Nat)
  | INVALID_START_TIME
  | NOT_ENOUGH_PLAYERS
  | GAME_NOT_STARTED
  | GAME_ALREADY_ENDED
  | PLAYER_NOT_IN_GAME (playerId : Nat)
  | PLAYER_ALREADY_FOLDED (playerId : Nat)
  | INVALID_CHECKPOINT
  | CHECKPOINT_ALREADY_PENDING
  | CHECKPOINT_ALREADY_COMPLETED
  | CHECKPOINT_EXPIRED
  | CHECK_IN_NOT_FOUND
  | CHECK_IN_ALREADY_APPROVED
  | CHECK_IN_REJECTED
  | AI_NOT_ENABLED
  | NOT_PENDING_VERIFICATION
  | LLM_NOT_CONFIGURED
  | INVALID_SUBMISSION (reasoning : String)
  deriving DecidableEq, Repr

/-- `Math.floor(a / b)` for integer operands (JavaScript floors the real
quotient; `Int.fdiv` is floor division). -/
def mathFloorDiv (a b : Int) : Int :=
  Int.fdiv a b

/-- Update the first player whose id matches, like the store's
`players.find(...)` followed by in-place mutation. -/
def updateFirstPlayer : List Player → Nat → (Player → Player) → List Player
  | [], _, _ => []
  | p :: rest, pid, f =>
    if p.id = pid then f p :: rest else p :: updateFirstPlayer rest pid f

/-- Update the first check-in whose id matches, like the store's
`findIndex` followed by in-place mutation. -/
def updateFirstCheckIn : List CheckIn → Nat → (CheckIn → CheckIn) → List CheckIn
  | [], _, _ => []
  | c :: rest, cid, f =>
    if c.id = cid then f c :: rest else c :: updateFirstCheckIn rest cid f

/-- `GameStorage.addPlayerToGameUncheckedMut`. -/
def addPlayerToGameUncheckedMut (g : Game) (p : Player) : Game :=
  { g with players := g.players ++ [p] }

/-- `GameStorage.addTransactionUncheckedMut`. -/
def addTransactionUncheckedMut (g : Game) (t : Transaction) : Game :=
  { g with transactions := g.transactions ++ [t] }

/-- `GameStorage.addToPoolUncheckedMut`. -/
def addToPoolUncheckedMut (g : Game) (amount : Int) : Game :=
  { g with totalPool := g.totalPool + amount }

/-- `GameStorage.cleanBonusPoolUncheckedMut`. -/
def cleanBonusPoolUncheckedMut (g : Game) : Game :=
  { g with bonusPool := 0 }

/-- `GameStorage.updateGameStatusUncheckedMut`. -/
def updateGameStatusUncheckedMut (g : Game) (s : GameState) : Game :=
  { g with state := s }

/-- `GameStorage.cashoutPlayerUncheckedMut`: move the cashout amount out of
the pool into total cashouts and the forfeited amount into the bonus pool. -/
def cashoutPlayerUncheckedMut (g : Game) (cashoutAmount forfeitedAmount : Int) : Game :=
  { g with
      totalCashouts := g.totalCashouts + cashoutAmount
      bonusPool := g.bonusPool + forfeitedAmount
      totalPool := g.totalPool - cashoutAmount }

/-- `GameStorage.getPlayerUncheckedCopy` (reads are deep copies; copying is
identity on immutable values). -/
def getPlayerUncheckedCopy (g : Game) (pid : Nat) : Option Player :=
  g.players.find? (fun p => p.id = pid)

/-- `GameStorage.increasePlayerProgressUncheckedMut`. -/
def increasePlayerProgressUncheckedMut (g : Game) (pid : Nat) : Game :=
  { g with players := (updateFirstPlayer g.players pid
      (fun p => { p with checkpointsCompleted := p.checkpointsCompleted + 1 })) }

/-- `GameStorage.foldPlayerUncheckedMut`: freezes the player's completed
count as their fold point. -/
def foldPlayerUncheckedMut (g : Game) (pid : Nat) : Game :=
  { g with players := (updateFirstPlayer g.players pid
      (fun p => { p with foldedAtCheckpoint := some p.checkpointsCompleted })) }

/-- `GameStorage.addPlayerBonusUncheckedMut`. -/
def addPlayerBonusUncheckedMut (g : Game) (pid : Nat) (bonus : Int) : Game :=
  { g with players := (updateFirstPlayer g.players pid
      (fun p => { p with bonusWon := some bonus })) }

/-- `GameStorage.addCheckInUncheckedMut`. -/
def addCheckInUncheckedMut (g : Game) (c : CheckIn) : Game :=
  { g with checkIns := g.checkIns ++ [c] }

/-- `GameStorage.deleteCheckInUncheckedMut`. -/
def deleteCheckInUncheckedMut (g : Game) (cid : Nat) : Game :=
  { g with checkIns := g.checkIns.filter (fun c => c.id ≠ cid) }

/-- `GameStorage.approveCheckInUncheckedMut`: terminalises the check-in as
`APPROVED`; the AI confidence is overwritten only when one is supplied. -/
def approveCheckInUncheckedMut (g : Game) (cid : Nat) (vb : VerifierKind)
    (conf : Option ℚ) (notes : Option String) (now : Int) : Game :=
  { g with checkIns := (updateFirstCheckIn g.checkIns cid (fun c =>
      { c with
          verifiedAt := some now
          verifiedBy := some vb
          aiConfidence := (match conf with | some x => some x | none => c.aiConfidence)
          notes := notes
          status := CheckInStatus.APPROVED })) }

/-- `GameStorage.rejectCheckInUncheckedMut`. -/
def rejectCheckInUncheckedMut (g : Game) (cid : Nat) (vb : VerifierKind)
    (conf : Option ℚ) (notes : Option String) (now : Int) : Game :=
  { g with checkIns := (updateFirstCheckIn g.checkIns cid (fun c =>
      { c with
          status := CheckInStatus.REJECTED
          verifiedAt := some now
          verifiedBy := some vb
          aiConfidence := conf
          notes := notes })) }

/-- `GameStorage.needsReviewCheckInUncheckedMut`: keeps the check-in
`PENDING`, attaching verifier metadata; `verifiedAt` stays unset. -/
def needsReviewCheckInUncheckedMut (g : Game) (cid : Nat) (vb : VerifierKind)
    (conf : Option ℚ) (notes : Option String) : Game :=
  { g with checkIns := (updateFirstCheckIn g.checkIns cid (fun c =>
      { c with
          status := CheckInStatus.PENDING
          verifiedBy := some vb
          aiConfidence := conf
          notes := notes })) }

/-- `GameStorage.getCheckInUncheckedCopy`. -/
def getCheckInUncheckedCopy (g : Game) (cid : Nat) : Option CheckIn :=
  g.checkIns.find? (fun c => c.id = cid)

/-- `GameStorage.getPlayerCheckInsCopy`. -/
def getPlayerCheckInsCopy (g : Game) (pid : Nat) : List CheckIn :=
  g.checkIns.filter (fun c => c.playerId = pid)

/-! ### Command inputs (the Zod-validated shapes) -/

/-- `JoinGameSchema`. -/
structure JoinGameInput where
  playerId : Nat
  playerName : String
  multiplier : Int
  deriving DecidableEq, Repr

/-- `StartGameSchema` (the game id selects the single embedded game). -/
structure StartGameInput where
  gameMasterId : Nat
  deriving DecidableEq, Repr

/-- `SubmitCheckInSchema`. -/
structure SubmitCheckInInput where
  playerId : Nat
  checkpointNumber : Nat
  proof : String
  deriving DecidableEq, Repr

/-- The status values `VerifyCheckInSchema` admits. -/
inductive VerifyStatus
  | APPROVED
  | REJECTED
  deriving DecidableEq, Repr

/-- `VerifyCheckInSchema`. -/
structure VerifyCheckInInput where
  checkInId : Nat
  gameMasterId : Nat
  verifiedBy : VerifierKind
  status : VerifyStatus
  notes : Option String := none
  deriving DecidableEq, Repr

/-- `CashoutSchema`. -/
structure CashoutInput where
  playerId : Nat
  deriving DecidableEq, Repr

/-- `EndGameSchema`. -/
structure EndGameInput where
  gameMasterId : Nat
  deriving DecidableEq, Repr

/-- `AbortGameSchema`. -/
structure AbortGameInput where
  gameMasterId : Nat
  deriving DecidableEq, Repr

/-- `CreateGameSchema`'s validated shape (stack size already in cents). -/
structure CreateGameInput where
  gameMasterId : Nat
  title : String
  stackSize : Int
  maxMultiplier : Int
  maxPlayers : Nat
  minPlayers : Nat
  startDate : Int
  endDate : Int
  checkpoints : List Checkpoint
  verificationMethod : VerificationMethod
  aiVerification : Option AIVerification
  objective : String
  playerAction : String
  rewardDescription : String
  failureCondition : String
  forceCashoutOnMiss : Bool
  deriving DecidableEq, Repr

/-- The constraints `CreateGameSchema` (with its refinements) and
`createGame`'s own end-after-start check enforce on a game configuration,
relative to the creation time `now`. -/
def ValidCreateGameInput (now : Int) (input : CreateGameInput) : Prop :=
  1 ≤ input.stackSize ∧
  1 ≤ input.maxMultiplier ∧ input.maxMultiplier ≤ 100 ∧
  2 ≤ input.maxPlayers ∧ input.maxPlayers ≤ 1000 ∧
  2 ≤ input.minPlayers ∧
  now ≤ input.startDate ∧ now ≤ input.endDate ∧
  input.checkpoints ≠ [] ∧
  (input.verificationMethod = VerificationMethod.AI → input.aiVerification ≠ none) ∧
  input.startDate < input.endDate ∧
  input.startDate + 3600000 ≤ input.endDate ∧
  (∀ c ∈ input.checkpoints,
    input.startDate ≤ c.expiryDate ∧ c.expiryDate ≤ input.endDate) ∧
  List.Chain' (fun a b => a.expiryDate ≤ b.expiryDate) input.checkpoints

instance (now : Int) (input : CreateGameInput) :
    Decidable (ValidCreateGameInput now input) :=
  inferInstanceAs (Decidable
    (1 ≤ input.stackSize ∧
    1 ≤ input.maxMultiplier ∧ input.maxMultiplier ≤ 100 ∧
    2 ≤ input.maxPlayers ∧ input.maxPlayers ≤ 1000 ∧
    2 ≤ input.minPlayers ∧
    now ≤ input.startDate ∧ now ≤ input.endDate ∧
    input.checkpoints ≠ [] ∧
    (input.verificationMethod = VerificationMethod.AI → input.aiVerification ≠ none) ∧
    input.startDate < input.endDate ∧
    input.startDate + 3600000 ≤ input.endDate ∧
    (∀ c ∈ input.checkpoints,
      input.startDate ≤ c.expiryDate ∧ c.expiryDate ≤ input.endDate) ∧
    List.Chain' (fun a b : Checkpoint => a.expiryDate ≤ b.expiryDate) input.checkpoints))

/-! ### Commands (`GameService`) -/

/-- `GameService.createGame` on already-validated input: assigns identity,
initial state `WAITING_FOR_PLAYERS`, zeroed financial counters. -/
def createGame (input : CreateGameInput) (gameId : Nat) : Game :=
  { id := gameId
    gameMasterId := input.gameMasterId
    title := input.title
    stackSize := input.stackSize
    maxMultiplier := input.maxMultiplier
    maxPlayers := input.maxPlayers
    minPlayers := input.minPlayers
    startDate := input.startDate
    endDate := input.endDate
    checkpoints := input.checkpoints
    verificationMethod := input.verificationMethod
    aiVerification := input.aiVerification
    objective := input.objective
    playerAction := input.playerAction
    rewardDescription := input.rewardDescription
    failureCondition := input.failureCondition
    forceCashoutOnMiss := input.forceCashoutOnMiss
    state := GameState.WAITING_FOR_PLAYERS
    players := []
    checkIns := []
    transactions := []
    totalPool := 0
    totalCashouts := 0
    bonusPool := 0
    endedAt := none }

/-- `GameService.joinGame`: append player, append the `INITIAL_STAKE`
transaction, add the stake to the pool. -/
def joinGame (g : Game) (input : JoinGameInput) (now : Int) (txId : Nat) :
    Game × Except GameErr Game :=
  if g.state ≠ GameState.WAITING_FOR_PLAYERS then
    (g, Except.error GameErr.GAME_ALREADY_STARTED)
  else if g.maxPlayers ≤ g.players.length then
    (g, Except.error GameErr.TOO_MANY_PLAYERS)
  else if g.players.any (fun p => p.id = input.playerId) then
    (g, Except.error (GameErr.PLAYER_ALREADY_JOINED input.playerId))
  else if g.maxMultiplier < input.multiplier then
    (g, Except.error GameErr.INVALID_MULTIPLIER)
  else
    let player : Player :=
      { id := input.playerId
        name := input.playerName
        multiplier := input.multiplier
        foldedAtCheckpoint := none
        bonusWon := none
        joinedAt := now
        checkpointsCompleted := 0 }
    let stake := g.stackSize * input.multiplier
    let tx : Transaction :=
      { id := txId
        playerId := input.playerId
        type := TransactionType.INITIAL_STAKE
        amount := stake
        timestamp := now
        description := "Initial stake" }
    let g' := addToPoolUncheckedMut
      (addTransactionUncheckedMut (addPlayerToGameUncheckedMut g player) tx) stake
    (g', Except.ok g')

/-- `GameService.startGame`: game-master only, from `WAITING_FOR_PLAYERS`,
within one hour after the scheduled start, with at least `minPlayers`. -/
def startGame (g : Game) (input : StartGameInput) (now : Int) :
    Game × Except GameErr Game :=
  if g.gameMasterId ≠ input.gameMasterId then
    (g, Except.error (GameErr.UNAUTHORIZED_GAME_MASTER input.gameMasterId))
  else if g.state ≠ GameState.WAITING_FOR_PLAYERS then
    (g, Except.error GameErr.GAME_ALREADY_STARTED)
  else if now < g.startDate ∨ g.startDate + 3600000 < now then
    (g, Except.error GameErr.INVALID_START_TIME)
  else if g.players.length < g.minPlayers then
    (g, Except.error GameErr.NOT_ENOUGH_PLAYERS)
  else
    let g' := updateGameStatusUncheckedMut g GameState.IN_PROGRESS
    (g', Except.ok g')

/-- `GameService.cashOut`: only while `IN_PROGRESS` for a present, unfolded
player; settles `floor(stake × completed / totalCheckpoints)`, folds the
player, appends the `CASHOUT` transaction, moves the amounts. -/
def cashOut (g : Game) (input : CashoutInput) (now : Int) (txId : Nat) :
    Game × Except GameErr Transaction :=
  if g.state ≠ GameState.IN_PROGRESS then
    (g, Except.error GameErr.GAME_NOT_STARTED)
  else
    match getPlayerUncheckedCopy g input.playerId with
    | none => (g, Except.error (GameErr.PLAYER_NOT_IN_GAME input.playerId))
    | some player =>
      if player.foldedAtCheckpoint ≠ none then
        (g, Except.error (GameErr.PLAYER_ALREADY_FOLDED input.playerId))
      else
        let stake := g.stackSize * player.multiplier
        let cashoutAmount :=
          mathFloorDiv (stake * (player.checkpointsCompleted : Int))
            (g.checkpoints.length : Int)
        let forfeitedAmount := stake - cashoutAmount
        let tx : Transaction :=
          { id := txId
            playerId := input.playerId
            type := TransactionType.CASHOUT
            amount := cashoutAmount
            timestamp := now
            description := "Cashout" }
        let g' := cashoutPlayerUncheckedMut
          (addTransactionUncheckedMut (foldPlayerUncheckedMut g input.playerId) tx)
          cashoutAmount forfeitedAmount
        (g', Except.ok tx)

/-- `GameService.verifyCheckIn`: the game master terminalises a `PENDING`
check-in; approval additionally increments the player's progress. -/
def verifyCheckIn (g : Game) (input : VerifyCheckInInput) (now : Int) :
    Game × Except GameErr CheckIn :=
  match getCheckInUncheckedCopy g input.checkInId with
  | none => (g, Except.error GameErr.CHECK_IN_NOT_FOUND)
  | some checkIn =>
    if g.gameMasterId ≠ input.gameMasterId then
      (g, Except.error (GameErr.UNAUTHORIZED_GAME_MASTER input.gameMasterId))
    else if g.state = GameState.ENDED then
      (g, Except.error GameErr.GAME_ALREADY_ENDED)
    else if g.state = GameState.WAITING_FOR_PLAYERS then
      (g, Except.error GameErr.GAME_NOT_STARTED)
    else if checkIn.status = CheckInStatus.APPROVED then
      (g, Except.error GameErr.CHECK_IN_ALREADY_APPROVED)
    else if checkIn.status = CheckInStatus.REJECTED then
      (g, Except.error GameErr.CHECK_IN_REJECTED)
    else
      match getPlayerUncheckedCopy g checkIn.playerId with
      | none => (g, Except.error (GameErr.PLAYER_NOT_IN_GAME checkIn.playerId))
      | some player =>
        if player.foldedAtCheckpoint ≠ none then
          (g, Except.error (GameErr.PLAYER_ALREADY_FOLDED checkIn.playerId))
        else
          let g' :=
            match input.status with
            | VerifyStatus.APPROVED =>
              increasePlayerProgressUncheckedMut
                (approveCheckInUncheckedMut g input.checkInId input.verifiedBy
                  none input.notes now)
                checkIn.playerId
            | VerifyStatus.REJECTED =>
              rejectCheckInUncheckedMut g input.checkInId input.verifiedBy
                none input.notes now
          match getCheckInUncheckedCopy g' input.checkInId with
          | none => (g', Except.error GameErr.CHECK_IN_NOT_FOUND)
          | some final => (g', Except.ok final)

/-- `GameService.verifyCheckInWithAI`: applies the provider's decision to a
`PENDING` check-in; a transport/parse failure degrades to needs-review with
confidence 0 and an explanatory note; `INVALID_SUBMISSION` is an error. -/
def verifyCheckInWithAI (g : Game) (checkInId : Nat) (apiKeyConfigured : Bool)
    (llmResult : Except String LLMResponse) (now : Int) :
    Game × Except GameErr CheckIn :=
  if g.verificationMethod ≠ VerificationMethod.AI ∨ g.aiVerification = none then
    (g, Except.error GameErr.AI_NOT_ENABLED)
  else
    match getCheckInUncheckedCopy g checkInId with
    | none => (g, Except.error GameErr.CHECK_IN_NOT_FOUND)
    | some checkIn =>
      if checkIn.status ≠ CheckInStatus.PENDING then
        (g, Except.error GameErr.NOT_PENDING_VERIFICATION)
      else if ¬ apiKeyConfigured then
        (g, Except.error GameErr.LLM_NOT_CONFIGURED)
      else
        match llmResult with
        | Except.error msg =>
          let g' := needsReviewCheckInUncheckedMut g checkInId VerifierKind.AI
            (some 0)
            (some ("AI verification failed: " ++ msg ++ ". Please review manually."))
          match getCheckInUncheckedCopy g' checkInId with
          | none => (g', Except.error GameErr.CHECK_IN_NOT_FOUND)
          | some final => (g', Except.ok final)
        | Except.ok v =>
          match v.decision with
          | LLMDecision.APPROVED =>
            let g' := increasePlayerProgressUncheckedMut
              (approveCheckInUncheckedMut g checkInId VerifierKind.AI
                (some v.confidence) (some v.reasoning) now)
              checkIn.playerId
            match getCheckInUncheckedCopy g' checkInId with
            | none => (g', Except.error GameErr.CHECK_IN_NOT_FOUND)
            | some final => (g', Except.ok final)
          | LLMDecision.REJECTED =>
            let g' := rejectCheckInUncheckedMut g checkInId VerifierKind.AI
              (some v.confidence) (some v.reasoning) now
            match getCheckInUncheckedCopy g' checkInId with
            | none => (g', Except.error GameErr.CHECK_IN_NOT_FOUND)
            | some final => (g', Except.ok final)
          | LLMDecision.NEEDS_REVIEW =>
            let g' := needsReviewCheckInUncheckedMut g checkInId VerifierKind.AI
              (some v.confidence) (some v.reasoning)
            match getCheckInUncheckedCopy g' checkInId with
            | none => (g', Except.error GameErr.CHECK_IN_NOT_FOUND)
            | some final => (g', Except.ok final)
          | LLMDecision.INVALID_SUBMISSION =>
            (g, Except.error (GameErr.INVALID_SUBMISSION v.reasoning))

/-- The fresh `PENDING` check-in record `submitCheckIn` builds. -/
def newCheckInOf (input : SubmitCheckInInput) (now : Int) (checkInId : Nat) : CheckIn :=
  { id := checkInId
    playerId := input.playerId
    checkpointNumber := input.checkpointNumber
    proof := input.proof
    submittedAt := now
    status := CheckInStatus.PENDING
    verifiedAt := none
    verifiedBy := none
    aiConfidence := none
    notes := none }

/-- `GameService.submitCheckIn`: validates game/player/checkpoint state and
the resubmission gate, persists a `PENDING` check-in, and for AI games runs
AI verification at once, deleting the check-in again when that errs. -/
def submitCheckIn (g : Game) (input : SubmitCheckInInput) (now : Int)
    (checkInId : Nat) (apiKeyConfigured : Bool)
    (llmResult : Except String LLMResponse) :
    Game × Except GameErr CheckIn :=
  if g.state ≠ GameState.IN_PROGRESS then
    (g, Except.error GameErr.GAME_NOT_STARTED)
  else
    match getPlayerUncheckedCopy g input.playerId with
    | none => (g, Except.error (GameErr.PLAYER_NOT_IN_GAME input.playerId))
    | some player =>
      if player.foldedAtCheckpoint ≠ none then
        (g, Except.error (GameErr.PLAYER_ALREADY_FOLDED input.playerId))
      else if g.checkpoints.length < input.checkpointNumber then
        (g, Except.error GameErr.INVALID_CHECKPOINT)
      else
        let playersCheckIns := getPlayerCheckInsCopy g input.playerId
        if playersCheckIns.any (fun c =>
            c.checkpointNumber = input.checkpointNumber ∧
            c.status = CheckInStatus.PENDING) then
          (g, Except.error GameErr.CHECKPOINT_ALREADY_PENDING)
        else if playersCheckIns.any (fun c =>
            c.checkpointNumber = input.checkpointNumber ∧
            c.status = CheckInStatus.APPROVED) then
          (g, Except.error GameErr.CHECKPOINT_ALREADY_COMPLETED)
        else if (g.checkpoints.getD (input.checkpointNumber - 1) default).expiryDate < now then
          (g, Except.error GameErr.CHECKPOINT_EXPIRED)
        else
          let checkIn : CheckIn := newCheckInOf input now checkInId
          let g1 := addCheckInUncheckedMut g checkIn
          if g.verificationMethod = VerificationMethod.AI then
            match verifyCheckInWithAI g1 checkIn.id apiKeyConfigured llmResult now with
            | (g2, Except.error e) => (deleteCheckInUncheckedMut g2 checkIn.id, Except.error e)
            | (g2, Except.ok _) =>
              match getCheckInUncheckedCopy g2 checkIn.id with
              | none => (g2, Except.error GameErr.CHECK_IN_NOT_FOUND)
              | some final => (g2, Except.ok final)
          else
            match getCheckInUncheckedCopy g1 checkIn.id with
            | none => (g1, Except.error GameErr.CHECK_IN_NOT_FOUND)
            | some final => (g1, Except.ok final)

/-- The winners filter of `endGame`: active (non-folded) players with every
checkpoint completed, read from the copy taken at the start of the call. -/
def winnersOf (g : Game) : List Player :=
  g.players.filter (fun p =>
    p.foldedAtCheckpoint = none ∧ p.checkpointsCompleted = g.checkpoints.length)

/-- The forced-cashout filter of `endGame`: active players with incomplete
checkpoints. -/
def nonCashedOutPlayersOf (g : Game) : List Player :=
  g.players.filter (fun p =>
    p.foldedAtCheckpoint = none ∧ p.checkpointsCompleted ≠ g.checkpoints.length)

/-- `totalWinnerStakes` of `endGame`'s bonus block. -/
def totalWinnerStakes (g : Game) : Int :=
  ((winnersOf g).map (fun w => g.stackSize * w.multiplier)).sum

/-- `bonusShare` as `endGame` computes it for a winner, over the bonus pool
of the copy `g` taken at the start of the call. -/
def bonusShare (g : Game) (w : Player) : Int :=
  mathFloorDiv (g.stackSize * w.multiplier * g.bonusPool) (totalWinnerStakes g)

/-- `GameService.endGame`: force-cashes-out incomplete active players, then
pays winners `stake + bonusShare` — with winners, stakes and the bonus pool
all read from the copy `g` taken before the forced cash-outs — and marks
the game `ENDED`. -/
def endGame (g : Game) (input : EndGameInput) (now : Int) (idSeed : Nat) :
    Game × Except GameErr Game :=
  if g.gameMasterId ≠ input.gameMasterId then
    (g, Except.error (GameErr.UNAUTHORIZED_GAME_MASTER input.gameMasterId))
  else if g.state = GameState.ENDED then
    (g, Except.error GameErr.GAME_ALREADY_ENDED)
  else if g.state = GameState.WAITING_FOR_PLAYERS then
    (g, Except.error GameErr.GAME_NOT_STARTED)
  else
    let g1 := (nonCashedOutPlayersOf g).foldl
      (fun acc p => (cashOut acc { playerId := p.id } now (idSeed + p.id)).1) g
    let g2 :=
      if 0 < (winnersOf g).length ∧ 0 < g.bonusPool then
        (winnersOf g).foldl (fun acc w =>
          let winnerStake := g.stackSize * w.multiplier
          let share := bonusShare g w
          addTransactionUncheckedMut (addPlayerBonusUncheckedMut acc w.id share)
            { id := idSeed + 1000000 + w.id
              playerId := w.id
              type := TransactionType.PAYOUT
              amount := winnerStake + share
              timestamp := now
              description := "Final payout" }) g1
      else g1
    let g3 := updateGameStatusUncheckedMut g2 GameState.ENDED
    (g3, Except.ok g3)

/-- Modelled from the spec: the `abortGame` command is declared in the
caller-facing surface (`AbortGameSchema` in `types/index.ts`) and in the
architecture document's abort-game flow, but its implementation is not
among the provided sources. Following §4.4: game master only, not from
`WAITING_FOR_PLAYERS` or `ENDED`; folded players keep their cashout and get
no further refund; every other player is refunded their full stake by a
`REFUND` transaction; the bonus pool is cleared with an explanatory
`BONUS_POOL_CLEARED`-style transaction; the game transitions to the aborted
state (`ABORTED_MID_GAME` in the source's `GameStateSchema`). The next four
definitions make up this modelled command; this one is the single full-stake
`REFUND` transaction of one active player. -/
def abortRefundTx (g : Game) (now : Int) (idSeed : Nat) (p : Player) : Transaction :=
  { id := idSeed + 1 + p.id
    playerId := p.id
    type := TransactionType.REFUND
    amount := g.stackSize * p.multiplier
    timestamp := now
    description := "Refund: game aborted" }

/-- The full-stake refunds of the modelled abort: one `REFUND` transaction
per player who has not folded. -/
def abortRefundTxs (g : Game) (now : Int) (idSeed : Nat) : List Transaction :=
  (g.players.filter (fun p => p.foldedAtCheckpoint = none)).map
    (abortRefundTx g now idSeed)

/-- The explanatory bonus-pool-clearing transaction of the modelled abort. -/
def abortClearTx (g : Game) (now : Int) (idSeed : Nat) : Transaction :=
  { id := idSeed
    playerId := g.gameMasterId
    type := TransactionType.BONUS_POOL_CLEARED
    amount := g.bonusPool
    timestamp := now
    description := "Bonus pool cleared: game aborted" }

/-- Modelled from the spec: the abort command itself (see `abortRefundTx`). -/
def abortGame (g : Game) (input : AbortGameInput) (now : Int) (idSeed : Nat) :
    Game × Except GameErr Game :=
  if g.gameMasterId ≠ input.gameMasterId then
    (g, Except.error (GameErr.UNAUTHORIZED_GAME_MASTER input.gameMasterId))
  else if g.state = GameState.WAITING_FOR_PLAYERS then
    (g, Except.error GameErr.GAME_NOT_STARTED)
  else if g.state = GameState.ENDED then
    (g, Except.error GameErr.GAME_ALREADY_ENDED)
  else
    let g1 := { g with transactions :=
      g.transactions ++ abortRefundTxs g now idSeed ++ [abortClearTx g now idSeed] }
    let g2 := cleanBonusPoolUncheckedMut g1
    let g3 := updateGameStatusUncheckedMut g2 GameState.ABORTED_MID_GAME
    (g3, Except.ok g3)

/-! ### Helper lemmas -/

theorem find?_updateFirstPlayer (l : List Player) (pid : Nat) (f : Player → Player)
    (hf : ∀ p, (f p).id = p.id) :
    (updateFirstPlayer l pid f).find? (fun p => p.id = pid) =
      (l.find? (fun p => p.id = pid)).map f := by
  induction l with
  | nil => rfl
  | cons p rest ih =>
    by_cases h : p.id = pid
    · simp [updateFirstPlayer, h, List.find?_cons_of_pos, hf]
    · simp only [updateFirstPlayer, if_neg h]
      rw [List.find?_cons_of_neg, List.find?_cons_of_neg, ih] <;> simp [h]

theorem find?_updateFirstCheckIn (l : List CheckIn) (cid : Nat) (f : CheckIn → CheckIn)
    (hf : ∀ c, (f c).id = c.id) :
    (updateFirstCheckIn l cid f).find? (fun c => c.id = cid) =
      (l.find? (fun c => c.id = cid)).map f := by
  induction l with
  | nil => rfl
  | cons c rest ih =>
    by_cases h : c.id = cid
    · simp [updateFirstCheckIn, h, List.find?_cons_of_pos, hf]
    · simp only [updateFirstCheckIn, if_neg h]
      rw [List.find?_cons_of_neg, List.find?_cons_of_neg, ih] <;> simp [h]

theorem filter_fresh_append (l : List CheckIn) (c : CheckIn)
    (hfresh : ∀ x ∈ l, x.id ≠ c.id) :
    (l ++ [c]).filter (fun x => x.id ≠ c.id) = l := by
  rw [List.filter_append, List.filter_eq_self.mpr]
  · simp
  · intro a ha
    simpa using hfresh a ha

theorem deleteCheckIn_addCheckIn_of_fresh (g : Game) (c : CheckIn)
    (hfresh : ∀ c' ∈ g.checkIns, c'.id ≠ c.id) :
    deleteCheckInUncheckedMut (addCheckInUncheckedMut g c) c.id = g := by
  unfold deleteCheckInUncheckedMut addCheckInUncheckedMut
  simp only
  rw [show ((g.checkIns ++ [c]).filter (fun x => x.id ≠ c.id) = g.checkIns) from
    filter_fresh_append g.checkIns c hfresh]

/-- The floor division used by the settlement arithmetic never overshoots:
`S * floor(x / S) ≤ x` for positive `S`. -/
theorem mul_mathFloorDiv_le (x S : Int) (hS : 0 < S) : S * mathFloorDiv x S ≤ x := by
  unfold mathFloorDiv
  rw [Int.fdiv_eq_ediv _ (le_of_lt hS), mul_comm]
  exact Int.ediv_mul_le x (ne_of_gt hS)

/-! ### C7: bonus shares never overdistribute the bonus pool -/

/-- C7: whenever the winner set has positive total stake, the sum over all
winners of `bonusShare = floor(winnerStake × bonusPool / Σ winnerStakes)` is
at most `bonusPool` — floor rounding never overdistributes, and the
remainder stays in the pool (no transaction ever pays it out; see the
witness for the 801-cent pool split 400/400 with 1 retained). -/
theorem endGame_bonus_never_overdistributes (g : Game)
    (hS : 0 < totalWinnerStakes g) :
    ((winnersOf g).map (fun w => bonusShare g w)).sum ≤ g.bonusPool := by
  have key : totalWinnerStakes g * ((winnersOf g).map (fun w => bonusShare g w)).sum ≤
      totalWinnerStakes g * g.bonusPool := by
    rw [← List.sum_map_mul_left]
    have h1 : ∀ w ∈ winnersOf g,
        totalWinnerStakes g * bonusShare g w ≤ g.stackSize * w.multiplier * g.bonusPool := by
      intro w _
      exact mul_mathFloorDiv_le _ _ hS
    calc ((winnersOf g).map (fun w => totalWinnerStakes g * bonusShare g w)).sum
        ≤ ((winnersOf g).map (fun w => g.stackSize * w.multiplier * g.bonusPool)).sum :=
          List.sum_le_sum h1
      _ = ((winnersOf g).map (fun w => g.stackSize * w.multiplier)).sum * g.bonusPool := by
          rw [← List.sum_map_mul_right]
      _ = totalWinnerStakes g * g.bonusPool := by rw [totalWinnerStakes]
  exact le_of_mul_le_mul_left key hS

/-- A two-winner game matching the spec scenario: equal stakes 2000, bonus
pool 801. -/
def gBonus : Game :=
  { id := 1
    gameMasterId := 1
    title := "bonus"
    stackSize := 1000
    maxMultiplier := 5
    maxPlayers := 10
    minPlayers := 2
    startDate := 0
    endDate := 7200000
    checkpoints := [{ description := "only", expiryDate := 3600000 }]
    verificationMethod := VerificationMethod.GAMEMASTER
    aiVerification := none
    objective := "o"
    playerAction := "a"
    rewardDescription := "r"
    failureCondition := "f"
    forceCashoutOnMiss := false
    state := GameState.IN_PROGRESS
    players :=
      [ { id := 21, name := "W1", multiplier := 2, joinedAt := 0, checkpointsCompleted := 1 }
      , { id := 22, name := "W2", multiplier := 2, joinedAt := 0, checkpointsCompleted := 1 } ]
    checkIns := []
    transactions := []
    totalPool := 4000
    totalCashouts := 0
    bonusPool := 801 }

/-- Witness for C7: two winners of stake 2000 each over a 801-cent pool each
receive exactly 400; 800 is distributed and 1 is retained. -/
theorem endGame_bonus_never_overdistributes_witness :
    0 < totalWinnerStakes gBonus ∧
    ((winnersOf gBonus).map (fun w => bonusShare gBonus w)).sum ≤ gBonus.bonusPool ∧
    (winnersOf gBonus).map (fun w => bonusShare gBonus w) = [400, 400] ∧
    gBonus.bonusPool - ((winnersOf gBonus).map (fun w => bonusShare gBonus w)).sum = 1 := by
  refine ⟨by decide, endGame_bonus_never_overdistributes gBonus (by decide), by decide, by decide⟩

/-! ### C6: cash-out settlement -/

/-- C6: for an `IN_PROGRESS` game and a present, non-folded player,
`cashOut` succeeds with a `CASHOUT` transaction of amount
`floor(stake × checkpointsCompleted / totalCheckpoints)` where
`stake = stackSize × multiplier`; the player is folded at their current
completed count, the amount moves from `totalPool` into `totalCashouts`,
and `stake − cashoutAmount` is added to `bonusPool`. The witness instantiates
the spec scenario: stake 2000 at 3 of 5 checkpoints gives cashout 1200 and
forfeit 800. -/
theorem cashOut_settles (g : Game) (input : CashoutInput) (now : Int) (txId : Nat)
    (player : Player)
    (hstate : g.state = GameState.IN_PROGRESS)
    (hfind : getPlayerUncheckedCopy g input.playerId = some player)
    (hnf : player.foldedAtCheckpoint = none) :
    (cashOut g input now txId).2 =
      Except.ok
        { id := txId
          playerId := input.playerId
          type := TransactionType.CASHOUT
          amount := mathFloorDiv (g.stackSize * player.multiplier *
            (player.checkpointsCompleted : Int)) (g.checkpoints.length : Int)
          timestamp := now
          description := "Cashout" } ∧
    getPlayerUncheckedCopy (cashOut g input now txId).1 input.playerId =
      some { player with foldedAtCheckpoint := some player.checkpointsCompleted } ∧
    (cashOut g input now txId).1.transactions = g.transactions ++
      [ { id := txId
          playerId := input.playerId
          type := TransactionType.CASHOUT
          amount := mathFloorDiv (g.stackSize * player.multiplier *
            (player.checkpointsCompleted : Int)) (g.checkpoints.length : Int)
          timestamp := now
          description := "Cashout" } ] ∧
    (cashOut g input now txId).1.totalPool = g.totalPool -
      mathFloorDiv (g.stackSize * player.multiplier *
        (player.checkpointsCompleted : Int)) (g.checkpoints.length : Int) ∧
    (cashOut g input now txId).1.totalCashouts = g.totalCashouts +
      mathFloorDiv (g.stackSize * player.multiplier *
        (player.checkpointsCompleted : Int)) (g.checkpoints.length : Int) ∧
    (cashOut g input now txId).1.bonusPool = g.bonusPool +
      (g.stackSize * player.multiplier -
        mathFloorDiv (g.stackSize * player.multiplier *
          (player.checkpointsCompleted : Int)) (g.checkpoints.length : Int)) := by
  have hred : cashOut g input now txId =
      (cashoutPlayerUncheckedMut (addTransactionUncheckedMut
        (foldPlayerUncheckedMut g input.playerId)
        { id := txId
          playerId := input.playerId
          type := TransactionType.CASHOUT
          amount := mathFloorDiv (g.stackSize * player.multiplier *
            (player.checkpointsCompleted : Int)) (g.checkpoints.length : Int)
          timestamp := now
          description := "Cashout" })
        (mathFloorDiv (g.stackSize * player.multiplier *
          (player.checkpointsCompleted : Int)) (g.checkpoints.length : Int))
        (g.stackSize * player.multiplier -
          mathFloorDiv (g.stackSize * player.multiplier *
            (player.checkpointsCompleted : Int)) (g.checkpoints.length : Int)),
       Except.ok
        { id := txId
          playerId := input.playerId
          type := TransactionType.CASHOUT
          amount := mathFloorDiv (g.stackSize * player.multiplier *
            (player.checkpointsCompleted : Int)) (g.checkpoints.length : Int)
          timestamp := now
          description := "Cashout" }) := by
    unfold cashOut
    rw [hfind]
    simp [hstate, hnf]
  rw [hred]
  refine ⟨rfl, ?_, rfl, rfl, rfl, rfl⟩
  unfold getPlayerUncheckedCopy cashoutPlayerUncheckedMut addTransactionUncheckedMut
    foldPlayerUncheckedMut
  simp only
  rw [find?_updateFirstPlayer g.players input.playerId
    (fun p => { p with foldedAtCheckpoint := some p.checkpointsCompleted }) (fun p => rfl)]
  unfold getPlayerUncheckedCopy at hfind
  rw [hfind]
  rfl

/-- A concrete game for the C6 witness: stack size 1000, five checkpoints,
one player with multiplier 2 and 3 completed checkpoints. -/
def gCash6 : Game :=
  { gBonus with
      checkpoints :=
        [ { description := "c1", expiryDate := 1000000 }
        , { description := "c2", expiryDate := 2000000 }
        , { description := "c3", expiryDate := 3000000 }
        , { description := "c4", expiryDate := 4000000 }
        , { description := "c5", expiryDate := 5000000 } ]
      players :=
        [ { id := 7, name := "P", multiplier := 2, joinedAt := 0, checkpointsCompleted := 3 } ]
      totalPool := 2000
      bonusPool := 0 }

/-- Witness for C6: the spec scenario — stake 2000, 3 of 5 checkpoints →
cashout 1200, forfeit 800. -/
theorem cashOut_settles_witness :
    (cashOut gCash6 { playerId := 7 } 50 900).2 =
      Except.ok
        { id := 900
          playerId := 7
          type := TransactionType.CASHOUT
          amount := 1200
          timestamp := 50
          description := "Cashout" } ∧
    (cashOut gCash6 { playerId := 7 } 50 900).1.totalPool = 800 ∧
    (cashOut gCash6 { playerId := 7 } 50 900).1.totalCashouts = 1200 ∧
    (cashOut gCash6 { playerId := 7 } 50 900).1.bonusPool = 800 := by
  have h := cashOut_settles gCash6 { playerId := 7 } 50 900
    { id := 7, name := "P", multiplier := 2, joinedAt := 0, checkpointsCompleted := 3 }
    (by decide) (by decide) (by decide)
  refine ⟨?_, ?_, ?_, ?_⟩
  · rw [h.1]; decide
  · rw [h.2.2.2.1]; decide
  · rw [h.2.2.2.2.1]; decide
  · rw [h.2.2.2.2.2]; decide

theorem getCheckIn_add_fresh (g : Game) (c : CheckIn)
    (hfresh : ∀ x ∈ g.checkIns, x.id ≠ c.id) :
    getCheckInUncheckedCopy (addCheckInUncheckedMut g c) c.id = some c := by
  unfold getCheckInUncheckedCopy addCheckInUncheckedMut
  simp only
  rw [List.find?_append]
  have h1 : g.checkIns.find? (fun x => x.id = c.id) = none :=
    List.find?_eq_none.mpr (by intro x hx; simpa using hfresh x hx)
  rw [h1]
  simp

theorem getCheckIn_needsReview (g : Game) (cid : Nat) (c : CheckIn)
    (vb : VerifierKind) (conf : Option ℚ) (notes : Option String)
    (hc : getCheckInUncheckedCopy g cid = some c) :
    getCheckInUncheckedCopy (needsReviewCheckInUncheckedMut g cid vb conf notes) cid =
      some
        { c with
            status := CheckInStatus.PENDING
            verifiedBy := some vb
            aiConfidence := conf
            notes := notes } := by
  unfold getCheckInUncheckedCopy needsReviewCheckInUncheckedMut
  simp only
  rw [find?_updateFirstCheckIn g.checkIns cid
    (fun x =>
      { x with
          status := CheckInStatus.PENDING
          verifiedBy := some vb
          aiConfidence := conf
          notes := notes }) (fun x => rfl)]
  unfold getCheckInUncheckedCopy at hc
  rw [hc]
  rfl

theorem verifyCheckInWithAI_provider_failure (g : Game) (cid : Nat) (msg : String)
    (c : CheckIn) (now : Int)
    (hvm : g.verificationMethod = VerificationMethod.AI)
    (hai : g.aiVerification ≠ none)
    (hc : getCheckInUncheckedCopy g cid = some c)
    (hpend : c.status = CheckInStatus.PENDING) :
    verifyCheckInWithAI g cid true (Except.error msg) now =
      (needsReviewCheckInUncheckedMut g cid VerifierKind.AI (some 0)
        (some ("AI verification failed: " ++ msg ++ ". Please review manually.")),
       Except.ok
        { c with
            status := CheckInStatus.PENDING
            verifiedBy := some VerifierKind.AI
            aiConfidence := some 0
            notes := some ("AI verification failed: " ++ msg ++ ". Please review manually.") }) := by
  unfold verifyCheckInWithAI
  rw [hc]
  simp only [hvm, hai, ne_eq, not_true_eq_false, false_or, if_false, hpend,
    not_false_eq_true, Bool.not_true, ite_false, ite_true, reduceCtorEq]
  rw [getCheckIn_needsReview g cid c VerifierKind.AI (some 0)
    (some ("AI verification failed: " ++ msg ++ ". Please review manually.")) hc]

theorem verifyCheckInWithAI_invalid (g : Game) (cid : Nat) (v : LLMResponse)
    (c : CheckIn) (now : Int)
    (hvm : g.verificationMethod = VerificationMethod.AI)
    (hai : g.aiVerification ≠ none)
    (hc : getCheckInUncheckedCopy g cid = some c)
    (hpend : c.status = CheckInStatus.PENDING)
    (hdec : v.decision = LLMDecision.INVALID_SUBMISSION) :
    verifyCheckInWithAI g cid true (Except.ok v) now =
      (g, Except.error (GameErr.INVALID_SUBMISSION v.reasoning)) := by
  unfold verifyCheckInWithAI
  rw [hc]
  simp [hvm, hai, hpend, hdec]

theorem submitCheckIn_ai_branch (g : Game) (input : SubmitCheckInInput) (now : Int)
    (cid : Nat) (k : Bool) (llm : Except String LLMResponse) (player : Player)
    (hstate : g.state = GameState.IN_PROGRESS)
    (hfind : getPlayerUncheckedCopy g input.playerId = some player)
    (hnf : player.foldedAtCheckpoint = none)
    (hcn : input.checkpointNumber ≤ g.checkpoints.length)
    (hnp : (getPlayerCheckInsCopy g input.playerId).any (fun c =>
        c.checkpointNumber = input.checkpointNumber ∧
        c.status = CheckInStatus.PENDING) = false)
    (hna : (getPlayerCheckInsCopy g input.playerId).any (fun c =>
        c.checkpointNumber = input.checkpointNumber ∧
        c.status = CheckInStatus.APPROVED) = false)
    (hexp : ¬ ((g.checkpoints.getD (input.checkpointNumber - 1) default).expiryDate < now))
    (hvm : g.verificationMethod = VerificationMethod.AI) :
    submitCheckIn g input now cid k llm =
      (match verifyCheckInWithAI (addCheckInUncheckedMut g (newCheckInOf input now cid))
          cid k llm now with
       | (g2, Except.error e) => (deleteCheckInUncheckedMut g2 cid, Except.error e)
       | (g2, Except.ok _) =>
         match getCheckInUncheckedCopy g2 cid with
         | none => (g2, Except.error GameErr.CHECK_IN_NOT_FOUND)
         | some final => (g2, Except.ok final)) := by
  unfold submitCheckIn
  rw [hfind]
  simp only [hstate, hnf, hnp, hna, hvm, ne_eq, not_true_eq_false, if_false, ite_true,
    ite_false, Bool.false_eq_true, not_false_eq_true, if_neg, if_pos,
    reduceCtorEq, not_lt_of_ge]
  rw [if_neg (by omega), if_neg hexp]
  rfl


/-- C4: for an AI-verification game, when the provider call fails in
transport or returns a malformed/unparsable response (the error case of the
LLM oracle), `submitCheckIn` still returns success and the stored check-in
remains `PENDING` with `verifiedBy = AI`, confidence 0 and an explanatory
note — it is neither `REJECTED` nor deleted (it is still retrievable from
the store under its id). -/
theorem submitCheckIn_ai_failure_keeps_pending (g : Game) (input : SubmitCheckInInput)
    (now : Int) (cid : Nat) (msg : String) (player : Player)
    (hstate : g.state = GameState.IN_PROGRESS)
    (hfind : getPlayerUncheckedCopy g input.playerId = some player)
    (hnf : player.foldedAtCheckpoint = none)
    (hcn : input.checkpointNumber ≤ g.checkpoints.length)
    (hnp : (getPlayerCheckInsCopy g input.playerId).any (fun c =>
        c.checkpointNumber = input.checkpointNumber ∧
        c.status = CheckInStatus.PENDING) = false)
    (hna : (getPlayerCheckInsCopy g input.playerId).any (fun c =>
        c.checkpointNumber = input.checkpointNumber ∧
        c.status = CheckInStatus.APPROVED) = false)
    (hexp : ¬ ((g.checkpoints.getD (input.checkpointNumber - 1) default).expiryDate < now))
    (hvm : g.verificationMethod = VerificationMethod.AI)
    (hai : g.aiVerification ≠ none)
    (hfresh : ∀ x ∈ g.checkIns, x.id ≠ cid) :
    (submitCheckIn g input now cid true (Except.error msg)).2 =
      Except.ok
        { id := cid
          playerId := input.playerId
          checkpointNumber := input.checkpointNumber
          proof := input.proof
          submittedAt := now
          status := CheckInStatus.PENDING
          verifiedAt := none
          verifiedBy := some VerifierKind.AI
          aiConfidence := some 0
          notes := some ("AI verification failed: " ++ msg ++ ". Please review manually.") } ∧
    getCheckInUncheckedCopy (submitCheckIn g input now cid true (Except.error msg)).1 cid =
      some
        { id := cid
          playerId := input.playerId
          checkpointNumber := input.checkpointNumber
          proof := input.proof
          submittedAt := now
          status := CheckInStatus.PENDING
          verifiedAt := none
          verifiedBy := some VerifierKind.AI
          aiConfidence := some 0
          notes := some ("AI verification failed: " ++ msg ++ ". Please review manually.") } := by
  have hred := submitCheckIn_ai_branch g input now cid true (Except.error msg) player
    hstate hfind hnf hcn hnp hna hexp hvm
  have hcadd : getCheckInUncheckedCopy
      (addCheckInUncheckedMut g (newCheckInOf input now cid)) cid =
      some (newCheckInOf input now cid) :=
    getCheckIn_add_fresh g (newCheckInOf input now cid) hfresh
  have hfail := verifyCheckInWithAI_provider_failure
    (addCheckInUncheckedMut g (newCheckInOf input now cid)) cid msg
    (newCheckInOf input now cid) now (by simpa using hvm) (by simpa using hai) hcadd rfl
  have hget := getCheckIn_needsReview
    (addCheckInUncheckedMut g (newCheckInOf input now cid)) cid
    (newCheckInOf input now cid) VerifierKind.AI (some 0)
    (some ("AI verification failed: " ++ msg ++ ". Please review manually.")) hcadd
  rw [hred, hfail]
  simp only
  rw [hget]
  exact ⟨rfl, hget⟩

/-- C5: for an AI-verification game whose provider decides
`INVALID_SUBMISSION`, `submitCheckIn` returns a failure and the whole
submission is rolled back: the final stored state equals the pre-submission
state exactly (players, check-ins, transactions and pools included). -/
theorem submitCheckIn_invalid_rolls_back (g : Game) (input : SubmitCheckInInput)
    (now : Int) (cid : Nat) (v : LLMResponse) (player : Player)
    (hstate : g.state = GameState.IN_PROGRESS)
    (hfind : getPlayerUncheckedCopy g input.playerId = some player)
    (hnf : player.foldedAtCheckpoint = none)
    (hcn : input.checkpointNumber ≤ g.checkpoints.length)
    (hnp : (getPlayerCheckInsCopy g input.playerId).any (fun c =>
        c.checkpointNumber = input.checkpointNumber ∧
        c.status = CheckInStatus.PENDING) = false)
    (hna : (getPlayerCheckInsCopy g input.playerId).any (fun c =>
        c.checkpointNumber = input.checkpointNumber ∧
        c.status = CheckInStatus.APPROVED) = false)
    (hexp : ¬ ((g.checkpoints.getD (input.checkpointNumber - 1) default).expiryDate < now))
    (hvm : g.verificationMethod = VerificationMethod.AI)
    (hai : g.aiVerification ≠ none)
    (hfresh : ∀ x ∈ g.checkIns, x.id ≠ cid)
    (hdec : v.decision = LLMDecision.INVALID_SUBMISSION) :
    submitCheckIn g input now cid true (Except.ok v) =
      (g, Except.error (GameErr.INVALID_SUBMISSION v.reasoning)) := by
  have hred := submitCheckIn_ai_branch g input now cid true (Except.ok v) player
    hstate hfind hnf hcn hnp hna hexp hvm
  have hcadd : getCheckInUncheckedCopy
      (addCheckInUncheckedMut g (newCheckInOf input now cid)) cid =
      some (newCheckInOf input now cid) :=
    getCheckIn_add_fresh g (newCheckInOf input now cid) hfresh
  have hinv := verifyCheckInWithAI_invalid
    (addCheckInUncheckedMut g (newCheckInOf input now cid)) cid v
    (newCheckInOf input now cid) now (by simpa using hvm) (by simpa using hai) hcadd rfl hdec
  rw [hred, hinv]
  simp only
  rw [show deleteCheckInUncheckedMut (addCheckInUncheckedMut g (newCheckInOf input now cid)) cid = g
    from deleteCheckIn_addCheckIn_of_fresh g (newCheckInOf input now cid) hfresh]

/-- C10: a `PENDING` check-in whose submitting player has folded can never
be verified: `verifyCheckIn` fails with the player-already-folded error and
leaves the state unchanged, for any requested status (`APPROVED` as well as
`REJECTED`) and any verifier kind — including the scheduler's
`TIMEOUT_APPROVAL` path (see the witness). -/
theorem verifyCheckIn_folded_fails (g : Game) (input : VerifyCheckInInput)
    (now : Int) (checkIn : CheckIn) (player : Player) (k : Nat)
    (hc : getCheckInUncheckedCopy g input.checkInId = some checkIn)
    (hauth : g.gameMasterId = input.gameMasterId)
    (hne : g.state ≠ GameState.ENDED)
    (hnw : g.state ≠ GameState.WAITING_FOR_PLAYERS)
    (hpend : checkIn.status = CheckInStatus.PENDING)
    (hp : getPlayerUncheckedCopy g checkIn.playerId = some player)
    (hfold : player.foldedAtCheckpoint = some k) :
    verifyCheckIn g input now =
      (g, Except.error (GameErr.PLAYER_ALREADY_FOLDED checkIn.playerId)) := by
  unfold verifyCheckIn
  rw [hc]
  simp only [hauth, hne, hnw, hpend, ne_eq, not_true_eq_false, if_false, ite_true,
    ite_false, reduceCtorEq, if_neg, not_false_eq_true, if_true]
  rw [hp]
  simp [hfold]

theorem submitCheckIn_manual_ok (g : Game) (input : SubmitCheckInInput) (now : Int)
    (cid : Nat) (k : Bool) (llm : Except String LLMResponse) (player : Player)
    (hstate : g.state = GameState.IN_PROGRESS)
    (hfind : getPlayerUncheckedCopy g input.playerId = some player)
    (hnf : player.foldedAtCheckpoint = none)
    (hcn : input.checkpointNumber ≤ g.checkpoints.length)
    (hnp : (getPlayerCheckInsCopy g input.playerId).any (fun c =>
        c.checkpointNumber = input.checkpointNumber ∧
        c.status = CheckInStatus.PENDING) = false)
    (hna : (getPlayerCheckInsCopy g input.playerId).any (fun c =>
        c.checkpointNumber = input.checkpointNumber ∧
        c.status = CheckInStatus.APPROVED) = false)
    (hexp : ¬ ((g.checkpoints.getD (input.checkpointNumber - 1) default).expiryDate < now))
    (hvm : g.verificationMethod ≠ VerificationMethod.AI)
    (hfresh : ∀ x ∈ g.checkIns, x.id ≠ cid) :
    submitCheckIn g input now cid k llm =
      (addCheckInUncheckedMut g (newCheckInOf input now cid),
       Except.ok (newCheckInOf input now cid)) := by
  unfold submitCheckIn
  rw [hfind]
  simp only [hstate, hnf, hnp, hna, ne_eq, not_true_eq_false, if_false, ite_true,
    ite_false, Bool.false_eq_true, not_false_eq_true, reduceCtorEq]
  rw [if_neg (by omega), if_neg hexp, if_neg hvm]
  rw [getCheckIn_add_fresh g (newCheckInOf input now cid) hfresh]

/-- C3: the modelled `abortGame` (the exposed command surface declares it
via `AbortGameSchema`): for a caller equal to the game master and a game
neither `WAITING_FOR_PLAYERS` nor `ENDED`, it succeeds; every already-folded
player receives no further `REFUND` transaction, every non-folded player
receives a `REFUND` of exactly their full stake, the bonus pool is cleared
alongside an explanatory transaction carrying the cleared amount, and the
game transitions to the aborted state. -/
theorem abortGame_spec (g : Game) (input : AbortGameInput) (now : Int) (idSeed : Nat)
    (hauth : g.gameMasterId = input.gameMasterId)
    (hnw : g.state ≠ GameState.WAITING_FOR_PLAYERS)
    (hne : g.state ≠ GameState.ENDED)
    (hnodup : (g.players.map Player.id).Nodup) :
    (abortGame g input now idSeed).2 = Except.ok (abortGame g input now idSeed).1 ∧
    (abortGame g input now idSeed).1.state = GameState.ABORTED_MID_GAME ∧
    (abortGame g input now idSeed).1.bonusPool = 0 ∧
    (∃ t ∈ (abortGame g input now idSeed).1.transactions,
      t.type = TransactionType.BONUS_POOL_CLEARED ∧ t.amount = g.bonusPool) ∧
    (∀ p ∈ g.players, p.foldedAtCheckpoint ≠ none →
      (abortGame g input now idSeed).1.transactions.filter
        (fun t => t.type = TransactionType.REFUND ∧ t.playerId = p.id) =
      g.transactions.filter
        (fun t => t.type = TransactionType.REFUND ∧ t.playerId = p.id)) ∧
    (∀ p ∈ g.players, p.foldedAtCheckpoint = none →
      abortRefundTx g now idSeed p ∈ (abortGame g input now idSeed).1.transactions) := by
  have hred : abortGame g input now idSeed =
      (updateGameStatusUncheckedMut (cleanBonusPoolUncheckedMut
        { g with transactions :=
            g.transactions ++ abortRefundTxs g now idSeed ++ [abortClearTx g now idSeed] })
        GameState.ABORTED_MID_GAME,
       Except.ok (updateGameStatusUncheckedMut (cleanBonusPoolUncheckedMut
        { g with transactions :=
            g.transactions ++ abortRefundTxs g now idSeed ++ [abortClearTx g now idSeed] })
        GameState.ABORTED_MID_GAME)) := by
    unfold abortGame
    simp [hauth, hnw, hne]
  rw [hred]
  refine ⟨rfl, rfl, rfl, ?_, ?_, ?_⟩
  · refine ⟨abortClearTx g now idSeed, ?_, rfl, rfl⟩
    simp [updateGameStatusUncheckedMut, cleanBonusPoolUncheckedMut]
  · intro p hp hfold
    show (g.transactions ++ abortRefundTxs g now idSeed ++ [abortClearTx g now idSeed]).filter _ = _
    rw [List.append_assoc, List.filter_append]
    have h1 : ((abortRefundTxs g now idSeed ++ [abortClearTx g now idSeed]).filter
        (fun t => t.type = TransactionType.REFUND ∧ t.playerId = p.id)) = [] := by
      rw [List.filter_eq_nil_iff]
      intro t ht
      rcases List.mem_append.mp ht with hmap | hclear
      · rcases List.mem_map.mp hmap with ⟨q, hq, rfl⟩
        have hqmem := List.mem_filter.mp hq
        have hq1 : q.foldedAtCheckpoint = none := by simpa using hqmem.2
        simp only [abortRefundTx, decide_eq_true_eq, not_and]
        intro _ hid
        have hqp : q = p := List.inj_on_of_nodup_map hnodup hqmem.1 hp hid
        rw [hqp] at hq1
        exact hfold hq1
      · simp only [List.mem_singleton] at hclear
        rw [hclear]
        simp [abortClearTx]
    rw [h1]
    simp
  · intro p hp hfold
    have hpf : p ∈ g.players.filter (fun q => q.foldedAtCheckpoint = none) :=
      List.mem_filter.mpr ⟨hp, by simp [hfold]⟩
    simp only [updateGameStatusUncheckedMut, cleanBonusPoolUncheckedMut]
    refine List.mem_append.mpr (Or.inl (List.mem_append.mpr (Or.inr ?_)))
    exact List.mem_map.mpr ⟨p, hpf, rfl⟩

/-! ### Witnesses for C3, C4, C5, C10 -/

/-- An AI-verification game with one active player and no check-ins yet. -/
def gAI : Game :=
  { gBonus with
      verificationMethod := VerificationMethod.AI
      aiVerification := some { prompt := "criteria", trustThreshold := 80 }
      players :=
        [ { id := 31, name := "P", multiplier := 1, joinedAt := 0, checkpointsCompleted := 0 } ]
      totalPool := 1000
      bonusPool := 0 }

/-- Witness for C4: a transport failure ("boom") leaves the submitted
check-in stored, `PENDING`, `verifiedBy = AI`, confidence 0, with the
explanatory note, and the submission reports success. -/
theorem submitCheckIn_ai_failure_keeps_pending_witness :
    gAI.state = GameState.IN_PROGRESS ∧
    (submitCheckIn gAI { playerId := 31, checkpointNumber := 1, proof := "pf" }
        100 500 true (Except.error "boom")).2 =
      Except.ok
        { id := 500
          playerId := 31
          checkpointNumber := 1
          proof := "pf"
          submittedAt := 100
          status := CheckInStatus.PENDING
          verifiedAt := none
          verifiedBy := some VerifierKind.AI
          aiConfidence := some 0
          notes := some ("AI verification failed: " ++ "boom" ++ ". Please review manually.") } ∧
    getCheckInUncheckedCopy
        (submitCheckIn gAI { playerId := 31, checkpointNumber := 1, proof := "pf" }
          100 500 true (Except.error "boom")).1 500 =
      some
        { id := 500
          playerId := 31
          checkpointNumber := 1
          proof := "pf"
          submittedAt := 100
          status := CheckInStatus.PENDING
          verifiedAt := none
          verifiedBy := some VerifierKind.AI
          aiConfidence := some 0
          notes := some ("AI verification failed: " ++ "boom" ++ ". Please review manually.") } := by
  have h := submitCheckIn_ai_failure_keeps_pending gAI
    { playerId := 31, checkpointNumber := 1, proof := "pf" } 100 500 "boom"
    { id := 31, name := "P", multiplier := 1, joinedAt := 0, checkpointsCompleted := 0 }
    rfl (by decide) rfl (by decide) rfl rfl (by decide) rfl (by decide) (by decide)
  exact ⟨rfl, h.1, h.2⟩

/-- Witness for C5: an `INVALID_SUBMISSION` decision fails the call and
restores the exact pre-submission state. -/
theorem submitCheckIn_invalid_rolls_back_witness :
    gAI.state = GameState.IN_PROGRESS ∧
    submitCheckIn gAI { playerId := 31, checkpointNumber := 1, proof := "pf" }
        100 500 true
        (Except.ok { decision := LLMDecision.INVALID_SUBMISSION, reasoning := "bad", confidence := 1 }) =
      (gAI, Except.error (GameErr.INVALID_SUBMISSION "bad")) := by
  have h := submitCheckIn_invalid_rolls_back gAI
    { playerId := 31, checkpointNumber := 1, proof := "pf" } 100 500
    { decision := LLMDecision.INVALID_SUBMISSION, reasoning := "bad", confidence := 1 }
    { id := 31, name := "P", multiplier := 1, joinedAt := 0, checkpointsCompleted := 0 }
    rfl (by decide) rfl (by decide) rfl rfl (by decide) rfl (by decide) (by decide) rfl
  exact ⟨rfl, h⟩

/-- A game with a folded player who still has a `PENDING` check-in. -/
def gFolded10 : Game :=
  { gBonus with
      players :=
        [ { id := 41, name := "F", multiplier := 1, foldedAtCheckpoint := some 0,
            joinedAt := 0, checkpointsCompleted := 0 } ]
      checkIns :=
        [ { id := 601, playerId := 41, checkpointNumber := 1, proof := "pf",
            submittedAt := 5, status := CheckInStatus.PENDING } ] }

/-- Witness for C10: both the scheduler's timeout-approval request and a
game-master rejection fail with the player-already-folded error. -/
theorem verifyCheckIn_folded_fails_witness :
    verifyCheckIn gFolded10
        { checkInId := 601, gameMasterId := 1, verifiedBy := VerifierKind.TIMEOUT_APPROVAL,
          status := VerifyStatus.APPROVED, notes := none } 50 =
      (gFolded10, Except.error (GameErr.PLAYER_ALREADY_FOLDED 41)) ∧
    verifyCheckIn gFolded10
        { checkInId := 601, gameMasterId := 1, verifiedBy := VerifierKind.GAMEMASTER,
          status := VerifyStatus.REJECTED, notes := none } 50 =
      (gFolded10, Except.error (GameErr.PLAYER_ALREADY_FOLDED 41)) := by
  constructor
  · exact verifyCheckIn_folded_fails gFolded10 _ 50
      { id := 601, playerId := 41, checkpointNumber := 1, proof := "pf",
        submittedAt := 5, status := CheckInStatus.PENDING }
      { id := 41, name := "F", multiplier := 1, foldedAtCheckpoint := some 0,
        joinedAt := 0, checkpointsCompleted := 0 } 0
      (by decide) rfl (by decide) (by decide) rfl (by decide) rfl
  · exact verifyCheckIn_folded_fails gFolded10 _ 50
      { id := 601, playerId := 41, checkpointNumber := 1, proof := "pf",
        submittedAt := 5, status := CheckInStatus.PENDING }
      { id := 41, name := "F", multiplier := 1, foldedAtCheckpoint := some 0,
        joinedAt := 0, checkpointsCompleted := 0 } 0
      (by decide) rfl (by decide) (by decide) rfl (by decide) rfl

/-- A mid-game state with one folded and one active player and a non-empty
bonus pool, for the abort witness. -/
def gAbort3 : Game :=
  { gBonus with
      bonusPool := 700
      players :=
        [ { id := 51, name := "F", multiplier := 1, foldedAtCheckpoint := some 1,
            joinedAt := 0, checkpointsCompleted := 1 }
        , { id := 52, name := "G", multiplier := 3, joinedAt := 0, checkpointsCompleted := 0 } ] }

/-- Witness for C3: aborting `gAbort3` refunds the active player's full
stake (3000), gives the folded player no refund, clears the 700-cent bonus
pool with an explanatory transaction, and aborts the game. -/
theorem abortGame_spec_witness :
    (gAbort3.players.map Player.id).Nodup ∧
    (abortGame gAbort3 { gameMasterId := 1 } 60 800).1.state = GameState.ABORTED_MID_GAME ∧
    (abortGame gAbort3 { gameMasterId := 1 } 60 800).1.bonusPool = 0 ∧
    (∃ t ∈ (abortGame gAbort3 { gameMasterId := 1 } 60 800).1.transactions,
      t.type = TransactionType.BONUS_POOL_CLEARED ∧ t.amount = 700) ∧
    (abortRefundTx gAbort3 60 800
        { id := 52, name := "G", multiplier := 3, joinedAt := 0, checkpointsCompleted := 0 } ∈
      (abortGame gAbort3 { gameMasterId := 1 } 60 800).1.transactions) ∧
    abortRefundTx gAbort3 60 800
        { id := 52, name := "G", multiplier := 3, joinedAt := 0, checkpointsCompleted := 0 } =
      { id := 853, playerId := 52, type := TransactionType.REFUND, amount := 3000,
        timestamp := 60, description := "Refund: game aborted" } ∧
    (abortGame gAbort3 { gameMasterId := 1 } 60 800).1.transactions.filter
        (fun t => t.type = TransactionType.REFUND ∧ t.playerId = 51) = [] := by
  have h := abortGame_spec gAbort3 { gameMasterId := 1 } 60 800 rfl (by decide) (by decide)
    (by decide)
  refine ⟨by decide, h.2.1, h.2.2.1, ?_, ?_, by decide, ?_⟩
  · exact h.2.2.2.1
  · exact h.2.2.2.2.2
      { id := 52, name := "G", multiplier := 3, joinedAt := 0, checkpointsCompleted := 0 }
      (by decide) rfl
  · have h51 := h.2.2.2.2.1
      { id := 51, name := "F", multiplier := 1, foldedAtCheckpoint := some 1,
        joinedAt := 0, checkpointsCompleted := 1 }
      (by decide) (by decide)
    rw [h51]
    decide

/-! ### Counter-evaluation traces for C1 and C2

A fully reachable run of the real commands: create a one-checkpoint manual
game, two players join (1000 cents each), the game starts, player 12
submits and is approved for the only checkpoint (so they are a winner),
while player 11 never progresses. -/

/-- A minimal valid one-checkpoint manual-verification configuration. -/
def cfgOne : CreateGameInput :=
  { gameMasterId := 1
    title := "trace"
    stackSize := 1000
    maxMultiplier := 10
    maxPlayers := 10
    minPlayers := 2
    startDate := 10
    endDate := 3610000
    checkpoints := [{ description := "cp1", expiryDate := 1800000 }]
    verificationMethod := VerificationMethod.GAMEMASTER
    aiVerification := none
    objective := "o"
    playerAction := "a"
    rewardDescription := "r"
    failureCondition := "f"
    forceCashoutOnMiss := false }

def tCreated : Game := createGame cfgOne 100

def tJoinA : Game :=
  (joinGame tCreated { playerId := 11, playerName := "A", multiplier := 1 } 1 201).1

def tJoinB : Game :=
  (joinGame tJoinA { playerId := 12, playerName := "B", multiplier := 1 } 2 202).1

def tStarted : Game := (startGame tJoinB { gameMasterId := 1 } 20).1

def tSubmitted : Game :=
  (submitCheckIn tStarted { playerId := 12, checkpointNumber := 1, proof := "pf" }
    100 301 false (Except.error "unused")).1

def tApproved : Game :=
  (verifyCheckIn tSubmitted
    { checkInId := 301, gameMasterId := 1, verifiedBy := VerifierKind.GAMEMASTER,
      status := VerifyStatus.APPROVED, notes := none } 200).1

/-- `endGame` called directly on `tApproved` (no one has cashed out yet). -/
def tEndedDirect : Game := (endGame tApproved { gameMasterId := 1 } 400 500).1

/-- Player 11 cashes out voluntarily (forfeiting their whole 1000-cent
stake), then the game master ends the game. -/
def tFoldedA : Game := (cashOut tApproved { playerId := 11 } 300 401).1

def tEndedAfterFold : Game := (endGame tFoldedA { gameMasterId := 1 } 400 500).1

/-- C1: counter-evaluation. In `tApproved` player 12 is an active winner
(1 of 1 checkpoints) and player 11 is active and incomplete, with an empty
bonus pool. `endGame` force-cashes-out player 11 (whose forfeited 1000
cents enter the bonus pool) — but then pays no `PAYOUT` at all and records
no `bonusWon`, because the payout guard and the bonus shares read the
bonus pool of the stale pre-cashout copy (0); the game still ends. The
claim (and §4.4 with the source's own payment-logic comments, "Winners
get: initialStake + bonusShare") requires a `PAYOUT` of stake 1000 + share
1000 here. -/
theorem endGame_stale_bonus_pool_eval :
    tApproved.state = GameState.IN_PROGRESS ∧
    tApproved.checkpoints.length = 1 ∧
    (getPlayerUncheckedCopy tApproved 12).map Player.checkpointsCompleted = some 1 ∧
    (getPlayerUncheckedCopy tApproved 12).map Player.foldedAtCheckpoint = some none ∧
    tApproved.bonusPool = 0 ∧
    tEndedDirect.state = GameState.ENDED ∧
    (getPlayerUncheckedCopy tEndedDirect 11).map Player.foldedAtCheckpoint = some (some 0) ∧
    tEndedDirect.bonusPool = 1000 ∧
    tEndedDirect.transactions.filter (fun t => t.type = TransactionType.PAYOUT) = [] ∧
    (getPlayerUncheckedCopy tEndedDirect 12).map Player.bonusWon = some none := by
  decide

/-- C2: counter-evaluation. Along the trace ending in `tEndedAfterFold`,
conservation holds (`totalPool + totalCashouts` equals the 2000 cents of
`INITIAL_STAKE` transactions), and 1000 cents were forfeited (player 11's
cashout of 0) while 1000 cents of bonus were distributed to player 12
(`bonusWon = 1000`, `PAYOUT` of stake 1000 + bonus 1000) — yet `bonusPool`
still holds 1000, not `forfeited − distributed = 0`: `endGame` never
deducts distributed bonuses from the pool (the architecture document's
end-game flow calls `deductFromBonusPoolUncheckedMut`, which the store does
not even define). -/
theorem endGame_bonusPool_not_reduced_eval :
    (tEndedAfterFold.transactions.filter
      (fun t => t.type = TransactionType.INITIAL_STAKE)).map Transaction.amount = [1000, 1000] ∧
    (tEndedAfterFold.transactions.filter
      (fun t => t.type = TransactionType.CASHOUT)).map Transaction.amount = [0] ∧
    tEndedAfterFold.totalPool + tEndedAfterFold.totalCashouts = 2000 ∧
    (getPlayerUncheckedCopy tEndedAfterFold 12).map Player.bonusWon = some (some 1000) ∧
    (tEndedAfterFold.transactions.filter
      (fun t => t.type = TransactionType.PAYOUT)).map Transaction.amount = [2000] ∧
    tEndedAfterFold.bonusPool = 1000 := by
  decide

/-! ### Reachability: step relation, invariants -/

/-- Number of `APPROVED` check-ins a player has in a check-in list. -/
def approvedCount (l : List CheckIn) (pid : Nat) : Nat :=
  (l.filter (fun c => c.playerId = pid ∧ c.status = CheckInStatus.APPROVED)).length

/-- The resubmission discipline: among two check-ins of the same player for
the same checkpoint, the earlier one must be `REJECTED`. -/
def earlierRejected (a b : CheckIn) : Prop :=
  a.playerId = b.playerId → a.checkpointNumber = b.checkpointNumber →
    a.status = CheckInStatus.REJECTED

theorem mem_updateFirstCheckIn {l : List CheckIn} {cid : Nat} {f : CheckIn → CheckIn} :
    ∀ c' ∈ updateFirstCheckIn l cid f, c' ∈ l ∨ ∃ c ∈ l, c' = f c := by
  induction l with
  | nil => simp [updateFirstCheckIn]
  | cons a t ih =>
    intro c' hc'
    by_cases h : a.id = cid
    · simp only [updateFirstCheckIn, if_pos h] at hc'
      rcases List.mem_cons.mp hc' with h1 | h1
      · exact Or.inr ⟨a, List.mem_cons_self a t, h1⟩
      · exact Or.inl (List.mem_cons.mpr (Or.inr h1))
    · simp only [updateFirstCheckIn, if_neg h] at hc'
      rcases List.mem_cons.mp hc' with h1 | h1
      · exact Or.inl (List.mem_cons.mpr (Or.inl h1))
      · rcases ih c' h1 with h2 | ⟨c, hc, hfc⟩
        · exact Or.inl (List.mem_cons.mpr (Or.inr h2))
        · exact Or.inr ⟨c, List.mem_cons.mpr (Or.inr hc), hfc⟩

theorem mem_updateFirstPlayer {l : List Player} {pid : Nat} {f : Player → Player} :
    ∀ p' ∈ updateFirstPlayer l pid f, p' ∈ l ∨ ∃ p ∈ l, p' = f p := by
  induction l with
  | nil => simp [updateFirstPlayer]
  | cons a t ih =>
    intro p' hp'
    by_cases h : a.id = pid
    · simp only [updateFirstPlayer, if_pos h] at hp'
      rcases List.mem_cons.mp hp' with h1 | h1
      · exact Or.inr ⟨a, List.mem_cons_self a t, h1⟩
      · exact Or.inl (List.mem_cons.mpr (Or.inr h1))
    · simp only [updateFirstPlayer, if_neg h] at hp'
      rcases List.mem_cons.mp hp' with h1 | h1
      · exact Or.inl (List.mem_cons.mpr (Or.inl h1))
      · rcases ih p' h1 with h2 | ⟨p, hp, hfp⟩
        · exact Or.inl (List.mem_cons.mpr (Or.inr h2))
        · exact Or.inr ⟨p, List.mem_cons.mpr (Or.inr hp), hfp⟩

theorem map_id_updateFirstPlayer (l : List Player) (pid : Nat) (f : Player → Player)
    (hf : ∀ p, (f p).id = p.id) :
    (updateFirstPlayer l pid f).map Player.id = l.map Player.id := by
  induction l with
  | nil => rfl
  | cons a t ih =>
    by_cases h : a.id = pid
    · simp [updateFirstPlayer, h, hf]
    · simp [updateFirstPlayer, h, ih]

theorem map_id_updateFirstCheckIn (l : List CheckIn) (cid : Nat) (f : CheckIn → CheckIn)
    (hf : ∀ c, (f c).id = c.id) :
    (updateFirstCheckIn l cid f).map CheckIn.id = l.map CheckIn.id := by
  induction l with
  | nil => rfl
  | cons a t ih =>
    by_cases h : a.id = cid
    · simp [updateFirstCheckIn, h, hf]
    · simp [updateFirstCheckIn, h, ih]

theorem approvedCount_append_nonapproved (l : List CheckIn) (c : CheckIn) (pid : Nat)
    (h : c.status ≠ CheckInStatus.APPROVED) :
    approvedCount (l ++ [c]) pid = approvedCount l pid := by
  unfold approvedCount
  rw [List.filter_append]
  have h1 : [c].filter (fun x => x.playerId = pid ∧ x.status = CheckInStatus.APPROVED) = [] := by
    simp [h]
  rw [h1]
  simp

theorem approvedCount_updateFirst_nonapproved (l : List CheckIn) (cid : Nat)
    (f : CheckIn → CheckIn) (pid : Nat)
    (hpend : ∀ x ∈ l, x.id = cid → x.status = CheckInStatus.PENDING)
    (hfst : ∀ c, (f c).status ≠ CheckInStatus.APPROVED) :
    approvedCount (updateFirstCheckIn l cid f) pid = approvedCount l pid := by
  induction l with
  | nil => rfl
  | cons a t ih =>
    by_cases h : a.id = cid
    · have ha : a.status = CheckInStatus.PENDING := hpend a (List.mem_cons_self a t) h
      simp only [updateFirstCheckIn, if_pos h]
      unfold approvedCount
      rw [List.filter_cons, List.filter_cons]
      have h1 : ¬ ((decide ((f a).playerId = pid ∧ (f a).status = CheckInStatus.APPROVED)) = true) := by
        simp [hfst a]
      have h2 : ¬ ((decide (a.playerId = pid ∧ a.status = CheckInStatus.APPROVED)) = true) := by
        simp [ha]
      rw [if_neg h1, if_neg h2]
    · simp only [updateFirstCheckIn, if_neg h]
      have ih2 := ih (fun x hx hid => hpend x (List.mem_cons.mpr (Or.inr hx)) hid)
      unfold approvedCount at ih2 ⊢
      rw [List.filter_cons, List.filter_cons]
      by_cases hpa : (decide (a.playerId = pid ∧ a.status = CheckInStatus.APPROVED)) = true
      · rw [if_pos hpa, if_pos hpa, List.length_cons, List.length_cons, ih2]
      · rw [if_neg hpa, if_neg hpa]
        exact ih2

theorem approvedCount_updateFirst_approve (l : List CheckIn) (cid : Nat)
    (f : CheckIn → CheckIn) (x₀ : CheckIn) (pid : Nat)
    (hfind : l.find? (fun c => c.id = cid) = some x₀)
    (huniq : ∀ x ∈ l, x.id = cid → x = x₀)
    (hpend : x₀.status = CheckInStatus.PENDING)
    (hpid : ∀ c, (f c).playerId = c.playerId)
    (hfst : ∀ c, (f c).status = CheckInStatus.APPROVED) :
    approvedCount (updateFirstCheckIn l cid f) pid =
      approvedCount l pid + (if x₀.playerId = pid then 1 else 0) := by
  induction l with
  | nil => simp at hfind
  | cons a t ih =>
    by_cases h : a.id = cid
    · have hax : a = x₀ := huniq a (List.mem_cons_self a t) h
      subst hax
      simp only [updateFirstCheckIn, if_pos h]
      unfold approvedCount
      rw [List.filter_cons, List.filter_cons]
      have h2 : ¬ ((decide (a.playerId = pid ∧ a.status = CheckInStatus.APPROVED)) = true) := by
        simp [hpend]
      rw [if_neg h2]
      by_cases hp : a.playerId = pid
      · have h1 : (decide ((f a).playerId = pid ∧ (f a).status = CheckInStatus.APPROVED)) = true := by
          simp [hfst a, hpid a, hp]
        rw [if_pos h1, if_pos hp, List.length_cons]
      · have h1 : ¬ ((decide ((f a).playerId = pid ∧ (f a).status = CheckInStatus.APPROVED)) = true) := by
          simp [hfst a, hpid a, hp]
        rw [if_neg h1, if_neg hp]
        omega
    · have hfind2 : t.find? (fun c => c.id = cid) = some x₀ := by
        rw [List.find?_cons_of_neg] at hfind
        · exact hfind
        · simp [h]
      have ih2 := ih hfind2 (fun x hx hid => huniq x (List.mem_cons.mpr (Or.inr hx)) hid)
      simp only [updateFirstCheckIn, if_neg h]
      unfold approvedCount at ih2 ⊢
      rw [List.filter_cons, List.filter_cons]
      by_cases hpa : (decide (a.playerId = pid ∧ a.status = CheckInStatus.APPROVED)) = true
      · rw [if_pos hpa, if_pos hpa, List.length_cons, List.length_cons, ih2]
        omega
      · rw [if_neg hpa, if_neg hpa]
        exact ih2

theorem pairwise_updateFirst_pending (l : List CheckIn) (cid : Nat) (f : CheckIn → CheckIn)
    (hpw : List.Pairwise earlierRejected l)
    (hpend : ∀ x ∈ l, x.id = cid → x.status = CheckInStatus.PENDING)
    (hpid : ∀ c, (f c).playerId = c.playerId)
    (hcn : ∀ c, (f c).checkpointNumber = c.checkpointNumber) :
    List.Pairwise earlierRejected (updateFirstCheckIn l cid f) := by
  induction l with
  | nil => exact List.Pairwise.nil
  | cons a t ih =>
    rcases List.pairwise_cons.mp hpw with ⟨ha, ht⟩
    by_cases h : a.id = cid
    · have hap : a.status = CheckInStatus.PENDING := hpend a (List.mem_cons_self a t) h
      simp only [updateFirstCheckIn, if_pos h]
      refine List.pairwise_cons.mpr ⟨?_, ht⟩
      intro b hb hpid2 hcn2
      rw [hpid a] at hpid2
      rw [hcn a] at hcn2
      have := ha b hb hpid2 hcn2
      rw [hap] at this
      exact absurd this (by decide)
    · simp only [updateFirstCheckIn, if_neg h]
      refine List.pairwise_cons.mpr ⟨?_, ih ht
        (fun x hx hid => hpend x (List.mem_cons.mpr (Or.inr hx)) hid)⟩
      intro b' hb'
      rcases mem_updateFirstCheckIn b' hb' with hbm | ⟨b, hbm, rfl⟩
      · exact ha b' hbm
      · intro h1 h2
        rw [hpid b] at h1
        rw [hcn b] at h2
        exact ha b hbm h1 h2
theorem approvedCount_eq_zero_of_absent (l : List CheckIn) (pid : Nat)
    (h : ∀ c ∈ l, c.playerId ≠ pid) : approvedCount l pid = 0 := by
  unfold approvedCount
  rw [List.filter_eq_nil_iff.mpr]
  · rfl
  · intro c hc
    simp [h c hc]

theorem uniq_of_nodup_find? (l : List CheckIn) (cid : Nat) (x₀ : CheckIn)
    (hnodup : (l.map CheckIn.id).Nodup)
    (hfind : l.find? (fun c => c.id = cid) = some x₀) :
    ∀ x ∈ l, x.id = cid → x = x₀ := by
  intro x hx hxid
  have hx₀ := List.mem_of_find?_eq_some hfind
  have hx₀id : x₀.id = cid := by simpa using List.find?_some hfind
  exact List.inj_on_of_nodup_map hnodup hx hx₀ (by rw [hxid, hx₀id])

theorem mem_updateFirstPlayer_nodup (l : List Player) (pid : Nat) (f : Player → Player)
    (hnodup : (l.map Player.id).Nodup) :
    ∀ p' ∈ updateFirstPlayer l pid f,
      (p' ∈ l ∧ p'.id ≠ pid) ∨ (∃ p ∈ l, p.id = pid ∧ p' = f p) := by
  induction l with
  | nil => simp [updateFirstPlayer]
  | cons a t ih =>
    have hnt : (t.map Player.id).Nodup := (List.nodup_cons.mp hnodup).2
    have hna : a.id ∉ t.map Player.id := (List.nodup_cons.mp hnodup).1
    intro p' hp'
    by_cases h : a.id = pid
    · simp only [updateFirstPlayer, if_pos h] at hp'
      rcases List.mem_cons.mp hp' with h1 | h1
      · exact Or.inr ⟨a, List.mem_cons_self a t, h, h1⟩
      · refine Or.inl ⟨List.mem_cons.mpr (Or.inr h1), ?_⟩
        intro hid
        have hmem : p'.id ∈ t.map Player.id := List.mem_map_of_mem Player.id h1
        rw [hid, ← h] at hmem
        exact hna hmem
    · simp only [updateFirstPlayer, if_neg h] at hp'
      rcases List.mem_cons.mp hp' with h1 | h1
      · exact Or.inl ⟨List.mem_cons.mpr (Or.inl h1), by rw [h1]; exact h⟩
      · rcases ih hnt p' h1 with ⟨hm, hid⟩ | ⟨p, hm, hid, hfp⟩
        · exact Or.inl ⟨List.mem_cons.mpr (Or.inr hm), hid⟩
        · exact Or.inr ⟨p, List.mem_cons.mpr (Or.inr hm), hid, hfp⟩

theorem pairwise_append_new (l : List CheckIn) (c : CheckIn)
    (hpw : List.Pairwise earlierRejected l)
    (hall : ∀ a ∈ l, a.playerId = c.playerId → a.checkpointNumber = c.checkpointNumber →
      a.status = CheckInStatus.REJECTED) :
    List.Pairwise earlierRejected (l ++ [c]) := by
  rw [List.pairwise_append]
  exact ⟨hpw, List.pairwise_singleton _ _, by
    intro a ha b hb
    rw [List.mem_singleton] at hb
    subst hb
    exact hall a ha⟩

/-- The state-machine invariant the reachable game states satisfy. -/
structure Inv (g : Game) : Prop where
  counts : ∀ p ∈ g.players, p.checkpointsCompleted = approvedCount g.checkIns p.id
  cnBounds : ∀ c ∈ g.checkIns, 1 ≤ c.checkpointNumber ∧
    c.checkpointNumber ≤ g.checkpoints.length
  pw : List.Pairwise earlierRejected g.checkIns
  playersNodup : (g.players.map Player.id).Nodup
  ownersPresent : ∀ c ∈ g.checkIns, c.playerId ∈ g.players.map Player.id
  checkInsNodup : (g.checkIns.map CheckIn.id).Nodup

theorem inv_of_eq_fields (g g' : Game) (hp : g'.players = g.players)
    (hc : g'.checkIns = g.checkIns) (hcp : g'.checkpoints = g.checkpoints)
    (hinv : Inv g) : Inv g' := by
  refine ⟨?_, ?_, ?_, ?_, ?_, ?_⟩
  · rw [hp, hc]; exact hinv.counts
  · rw [hc, hcp]; exact hinv.cnBounds
  · rw [hc]; exact hinv.pw
  · rw [hp]; exact hinv.playersNodup
  · rw [hc, hp]; exact hinv.ownersPresent
  · rw [hc]; exact hinv.checkInsNodup

theorem inv_players_update (g : Game) (pid : Nat) (f : Player → Player)
    (hid : ∀ p, (f p).id = p.id)
    (hcc : ∀ p, (f p).checkpointsCompleted = p.checkpointsCompleted)
    (hinv : Inv g) :
    Inv { g with players := updateFirstPlayer g.players pid f } := by
  refine ⟨?_, hinv.cnBounds, hinv.pw, ?_, ?_, hinv.checkInsNodup⟩
  · intro p' hp'
    rcases mem_updateFirstPlayer p' hp' with hm | ⟨p, hm, rfl⟩
    · exact hinv.counts p' hm
    · rw [hcc p, hid p]
      exact hinv.counts p hm
  · show (updateFirstPlayer g.players pid f).map Player.id |>.Nodup
    rw [map_id_updateFirstPlayer g.players pid f hid]
    exact hinv.playersNodup
  · intro c hc
    show c.playerId ∈ (updateFirstPlayer g.players pid f).map Player.id
    rw [map_id_updateFirstPlayer g.players pid f hid]
    exact hinv.ownersPresent c hc
theorem inv_checkIns_update (g : Game) (cid : Nat) (f : CheckIn → CheckIn)
    (hid : ∀ c, (f c).id = c.id)
    (hpid : ∀ c, (f c).playerId = c.playerId)
    (hcn : ∀ c, (f c).checkpointNumber = c.checkpointNumber)
    (hfst : ∀ c, (f c).status ≠ CheckInStatus.APPROVED)
    (hpendAll : ∀ x ∈ g.checkIns, x.id = cid → x.status = CheckInStatus.PENDING)
    (hinv : Inv g) :
    Inv { g with checkIns := updateFirstCheckIn g.checkIns cid f } := by
  refine ⟨?_, ?_, ?_, hinv.playersNodup, ?_, ?_⟩
  · intro p hp
    show p.checkpointsCompleted = approvedCount (updateFirstCheckIn g.checkIns cid f) p.id
    rw [approvedCount_updateFirst_nonapproved g.checkIns cid f p.id hpendAll hfst]
    exact hinv.counts p hp
  · intro c' hc'
    rcases mem_updateFirstCheckIn c' hc' with hm | ⟨c, hm, rfl⟩
    · exact hinv.cnBounds c' hm
    · rw [hcn c]
      exact hinv.cnBounds c hm
  · exact pairwise_updateFirst_pending g.checkIns cid f hinv.pw hpendAll hpid hcn
  · intro c' hc'
    rcases mem_updateFirstCheckIn c' hc' with hm | ⟨c, hm, rfl⟩
    · exact hinv.ownersPresent c' hm
    · rw [hpid c]
      exact hinv.ownersPresent c hm
  · show ((updateFirstCheckIn g.checkIns cid f).map CheckIn.id).Nodup
    rw [map_id_updateFirstCheckIn g.checkIns cid f hid]
    exact hinv.checkInsNodup

theorem inv_approve_and_increment (g : Game) (cid : Nat) (x₀ : CheckIn)
    (f : CheckIn → CheckIn)
    (hfind : g.checkIns.find? (fun c => c.id = cid) = some x₀)
    (hpend : x₀.status = CheckInStatus.PENDING)
    (hid : ∀ c, (f c).id = c.id)
    (hpid : ∀ c, (f c).playerId = c.playerId)
    (hcn : ∀ c, (f c).checkpointNumber = c.checkpointNumber)
    (hfst : ∀ c, (f c).status = CheckInStatus.APPROVED)
    (hinv : Inv g) :
    Inv { g with
            checkIns := updateFirstCheckIn g.checkIns cid f
            players := (updateFirstPlayer g.players x₀.playerId
              (fun p => { p with checkpointsCompleted := p.checkpointsCompleted + 1 })) } := by
  have huniq := uniq_of_nodup_find? g.checkIns cid x₀ hinv.checkInsNodup hfind
  have hcount := approvedCount_updateFirst_approve g.checkIns cid f x₀
  refine ⟨?_, ?_, ?_, ?_, ?_, ?_⟩
  · intro p' hp'
    show p'.checkpointsCompleted = approvedCount (updateFirstCheckIn g.checkIns cid f) p'.id
    rcases mem_updateFirstPlayer_nodup g.players x₀.playerId _ hinv.playersNodup p' hp' with
      ⟨hm, hne⟩ | ⟨p, hm, hidp, rfl⟩
    · rw [hcount p'.id hfind huniq hpend hpid hfst, if_neg (fun hh => hne hh.symm)]
      exact hinv.counts p' hm
    · show p.checkpointsCompleted + 1 = approvedCount (updateFirstCheckIn g.checkIns cid f) p.id
      rw [hcount p.id hfind huniq hpend hpid hfst, if_pos hidp.symm, hinv.counts p hm]
  · intro c' hc'
    rcases mem_updateFirstCheckIn c' hc' with hm | ⟨c, hm, rfl⟩
    · exact hinv.cnBounds c' hm
    · rw [hcn c]
      exact hinv.cnBounds c hm
  · exact pairwise_updateFirst_pending g.checkIns cid f hinv.pw
      (fun x hx hidx => by rw [huniq x hx hidx]; exact hpend) hpid hcn
  · show ((updateFirstPlayer g.players x₀.playerId
        (fun p => { p with checkpointsCompleted := p.checkpointsCompleted + 1 })).map
        Player.id).Nodup
    rw [map_id_updateFirstPlayer g.players x₀.playerId
      (fun p => { p with checkpointsCompleted := p.checkpointsCompleted + 1 }) (fun p => rfl)]
    exact hinv.playersNodup
  · intro c' hc'
    show c'.playerId ∈ (updateFirstPlayer g.players x₀.playerId
      (fun p => { p with checkpointsCompleted := p.checkpointsCompleted + 1 })).map Player.id
    rw [map_id_updateFirstPlayer g.players x₀.playerId
      (fun p => { p with checkpointsCompleted := p.checkpointsCompleted + 1 }) (fun p => rfl)]
    rcases mem_updateFirstCheckIn c' hc' with hm | ⟨c, hm, rfl⟩
    · exact hinv.ownersPresent c' hm
    · rw [hpid c]
      exact hinv.ownersPresent c hm
  · show ((updateFirstCheckIn g.checkIns cid f).map CheckIn.id).Nodup
    rw [map_id_updateFirstCheckIn g.checkIns cid f hid]
    exact hinv.checkInsNodup

theorem inv_foldl {α : Type} (f : Game → α → Game)
    (hf : ∀ gg a, Inv gg → Inv (f gg a)) :
    ∀ (xs : List α) (gg : Game), Inv gg → Inv (xs.foldl f gg) := by
  intro xs
  induction xs with
  | nil => intro gg h; exact h
  | cons a t ih => intro gg h; exact ih (f gg a) (hf gg a h)

theorem inv_joinGame (g : Game) (i : JoinGameInput) (now : Int) (txId : Nat)
    (hinv : Inv g) : Inv (joinGame g i now txId).1 := by
  unfold joinGame
  split
  · exact hinv
  split
  · exact hinv
  split
  · exact hinv
  split
  · exact hinv
  rename_i h1 h2 h3 h4
  refine ⟨?_, hinv.cnBounds, hinv.pw, ?_, ?_, hinv.checkInsNodup⟩
  · intro p' hp'
    rcases List.mem_append.mp hp' with hm | hm
    · exact hinv.counts p' hm
    · rw [List.mem_singleton] at hm
      subst hm
      show 0 = approvedCount g.checkIns i.playerId
      symm
      apply approvedCount_eq_zero_of_absent
      intro c hc hcp
      have hmem := hinv.ownersPresent c hc
      rw [hcp] at hmem
      rcases List.mem_map.mp hmem with ⟨p, hp, hip⟩
      exact h3 (List.any_eq_true.mpr ⟨p, hp, by simp [hip]⟩)
  · show ((g.players ++ [_]).map Player.id).Nodup
    rw [List.map_append]
    refine List.Nodup.append hinv.playersNodup (List.nodup_singleton _) ?_
    intro x hx hy
    simp only [List.map_cons, List.map_nil, List.mem_singleton] at hy
    subst hy
    rcases List.mem_map.mp hx with ⟨p, hp, hip⟩
    exact h3 (List.any_eq_true.mpr ⟨p, hp, by simp [hip]⟩)
  · intro c hc
    show c.playerId ∈ (g.players ++ [_]).map Player.id
    rw [List.map_append]
    exact List.mem_append.mpr (Or.inl (hinv.ownersPresent c hc))

theorem inv_startGame (g : Game) (i : StartGameInput) (now : Int)
    (hinv : Inv g) : Inv (startGame g i now).1 := by
  unfold startGame
  split
  · exact hinv
  split
  · exact hinv
  split
  · exact hinv
  split
  · exact hinv
  exact inv_of_eq_fields g _ rfl rfl rfl hinv

theorem inv_cashOut (g : Game) (i : CashoutInput) (now : Int) (txId : Nat)
    (hinv : Inv g) : Inv (cashOut g i now txId).1 := by
  unfold cashOut
  split
  · exact hinv
  split
  · exact hinv
  rename_i player heq
  split
  · exact hinv
  exact inv_of_eq_fields
    { g with players := (updateFirstPlayer g.players i.playerId
        (fun p => { p with foldedAtCheckpoint := some p.checkpointsCompleted })) }
    _ rfl rfl rfl
    (inv_players_update g i.playerId
      (fun p => { p with foldedAtCheckpoint := some p.checkpointsCompleted })
      (fun p => rfl) (fun p => rfl) hinv)

theorem inv_abortGame (g : Game) (i : AbortGameInput) (now : Int) (idSeed : Nat)
    (hinv : Inv g) : Inv (abortGame g i now idSeed).1 := by
  unfold abortGame
  split
  · exact hinv
  split
  · exact hinv
  split
  · exact hinv
  exact inv_of_eq_fields g _ rfl rfl rfl hinv
theorem getCheckIn_increaseProgress (g : Game) (pid cid : Nat) :
    getCheckInUncheckedCopy (increasePlayerProgressUncheckedMut g pid) cid =
      getCheckInUncheckedCopy g cid := rfl

theorem getCheckIn_approve (g : Game) (cid : Nat) (vb : VerifierKind)
    (conf : Option ℚ) (notes : Option String) (now : Int) (c : CheckIn)
    (hc : getCheckInUncheckedCopy g cid = some c) :
    getCheckInUncheckedCopy (approveCheckInUncheckedMut g cid vb conf notes now) cid =
      some
        { c with
            verifiedAt := some now
            verifiedBy := some vb
            aiConfidence := (match conf with | some x => some x | none => c.aiConfidence)
            notes := notes
            status := CheckInStatus.APPROVED } := by
  unfold getCheckInUncheckedCopy approveCheckInUncheckedMut
  simp only
  rw [find?_updateFirstCheckIn g.checkIns cid
    (fun c =>
      { c with
          verifiedAt := some now
          verifiedBy := some vb
          aiConfidence := (match conf with | some x => some x | none => c.aiConfidence)
          notes := notes
          status := CheckInStatus.APPROVED }) (fun x => rfl)]
  unfold getCheckInUncheckedCopy at hc
  rw [hc]
  rfl

theorem getCheckIn_reject (g : Game) (cid : Nat) (vb : VerifierKind)
    (conf : Option ℚ) (notes : Option String) (now : Int) (c : CheckIn)
    (hc : getCheckInUncheckedCopy g cid = some c) :
    getCheckInUncheckedCopy (rejectCheckInUncheckedMut g cid vb conf notes now) cid =
      some
        { c with
            status := CheckInStatus.REJECTED
            verifiedAt := some now
            verifiedBy := some vb
            aiConfidence := conf
            notes := notes } := by
  unfold getCheckInUncheckedCopy rejectCheckInUncheckedMut
  simp only
  rw [find?_updateFirstCheckIn g.checkIns cid
    (fun c =>
      { c with
          status := CheckInStatus.REJECTED
          verifiedAt := some now
          verifiedBy := some vb
          aiConfidence := conf
          notes := notes }) (fun x => rfl)]
  unfold getCheckInUncheckedCopy at hc
  rw [hc]
  rfl

theorem verifyCheckInWithAI_shape (g : Game) (cid : Nat) (k : Bool)
    (llm : Except String LLMResponse) (now : Int) :
    (verifyCheckInWithAI g cid k llm now).1 = g ∨
    (∃ c, (verifyCheckInWithAI g cid k llm now).2 = Except.ok c) := by
  unfold verifyCheckInWithAI
  split
  · exact Or.inl rfl
  split
  · exact Or.inl rfl
  rename_i checkIn hfound
  split
  · exact Or.inl rfl
  split
  · exact Or.inl rfl
  split
  · rename_i msg
    dsimp only
    split
    · rename_i hnone
      rw [getCheckIn_needsReview g cid checkIn VerifierKind.AI (some 0)
        (some ("AI verification failed: " ++ msg ++ ". Please review manually.")) hfound] at hnone
      simp at hnone
    · rename_i final _
      exact Or.inr ⟨final, rfl⟩
  · rename_i v
    split
    · dsimp only
      split
      · rename_i hnone
        rw [getCheckIn_increaseProgress, getCheckIn_approve g cid VerifierKind.AI
          (some v.confidence) (some v.reasoning) now checkIn hfound] at hnone
        simp at hnone
      · rename_i final _
        exact Or.inr ⟨final, rfl⟩
    · dsimp only
      split
      · rename_i hnone
        rw [getCheckIn_reject g cid VerifierKind.AI (some v.confidence) (some v.reasoning)
          now checkIn hfound] at hnone
        simp at hnone
      · rename_i final _
        exact Or.inr ⟨final, rfl⟩
    · dsimp only
      split
      · rename_i hnone
        rw [getCheckIn_needsReview g cid checkIn VerifierKind.AI (some v.confidence)
          (some v.reasoning) hfound] at hnone
        simp at hnone
      · rename_i final _
        exact Or.inr ⟨final, rfl⟩
    · exact Or.inl rfl
theorem inv_verifyCheckIn (g : Game) (i : VerifyCheckInInput) (now : Int)
    (hinv : Inv g) : Inv (verifyCheckIn g i now).1 := by
  unfold verifyCheckIn
  split
  · exact hinv
  rename_i checkIn hfound
  split
  · exact hinv
  split
  · exact hinv
  split
  · exact hinv
  split
  · exact hinv
  split
  · exact hinv
  split
  · exact hinv
  split
  · exact hinv
  have hfind : g.checkIns.find? (fun c => c.id = i.checkInId) = some checkIn := hfound
  have hpend : checkIn.status = CheckInStatus.PENDING := by
    cases hs : checkIn.status
    · rfl
    · exact absurd hs (by assumption)
    · exact absurd hs (by assumption)
  have hpendAll : ∀ x ∈ g.checkIns, x.id = i.checkInId → x.status = CheckInStatus.PENDING := by
    intro x hx hid
    rw [uniq_of_nodup_find? g.checkIns i.checkInId checkIn hinv.checkInsNodup hfind x hx hid]
    exact hpend
  have hg' : Inv (match i.status with
      | VerifyStatus.APPROVED =>
        increasePlayerProgressUncheckedMut
          (approveCheckInUncheckedMut g i.checkInId i.verifiedBy none i.notes now)
          checkIn.playerId
      | VerifyStatus.REJECTED =>
        rejectCheckInUncheckedMut g i.checkInId i.verifiedBy none i.notes now) := by
    cases i.status with
    | APPROVED =>
      exact inv_approve_and_increment g i.checkInId checkIn _ hfind hpend
        (fun c => rfl) (fun c => rfl) (fun c => rfl) (fun c => rfl) hinv
    | REJECTED =>
      exact inv_checkIns_update g i.checkInId
        (fun c =>
          { c with
              status := CheckInStatus.REJECTED
              verifiedAt := some now
              verifiedBy := some i.verifiedBy
              aiConfidence := none
              notes := i.notes })
        (fun c => rfl) (fun c => rfl) (fun c => rfl)
        (fun c => by simp) hpendAll hinv
  dsimp only
  split
  · exact hg'
  · exact hg'

theorem inv_verifyCheckInWithAI (g : Game) (cid : Nat) (k : Bool)
    (llm : Except String LLMResponse) (now : Int) (hinv : Inv g) :
    Inv (verifyCheckInWithAI g cid k llm now).1 := by
  unfold verifyCheckInWithAI
  split
  · exact hinv
  split
  · exact hinv
  rename_i checkIn hfound
  split
  · exact hinv
  split
  · exact hinv
  have hfind : g.checkIns.find? (fun c => c.id = cid) = some checkIn := hfound
  have hpend : checkIn.status = CheckInStatus.PENDING := not_not.mp (by assumption)
  have hpendAll : ∀ x ∈ g.checkIns, x.id = cid → x.status = CheckInStatus.PENDING := by
    intro x hx hid
    rw [uniq_of_nodup_find? g.checkIns cid checkIn hinv.checkInsNodup hfind x hx hid]
    exact hpend
  split
  · rename_i msg
    have hg' : Inv (needsReviewCheckInUncheckedMut g cid VerifierKind.AI (some 0)
        (some ("AI verification failed: " ++ msg ++ ". Please review manually."))) :=
      inv_checkIns_update g cid
        (fun c =>
          { c with
              status := CheckInStatus.PENDING
              verifiedBy := some VerifierKind.AI
              aiConfidence := some 0
              notes := some ("AI verification failed: " ++ msg ++ ". Please review manually.") })
        (fun c => rfl) (fun c => rfl) (fun c => rfl)
        (fun c => by simp) hpendAll hinv
    dsimp only
    split
    · exact hg'
    · exact hg'
  · rename_i v
    split
    · have hg' : Inv (increasePlayerProgressUncheckedMut
          (approveCheckInUncheckedMut g cid VerifierKind.AI (some v.confidence)
            (some v.reasoning) now) checkIn.playerId) :=
        inv_approve_and_increment g cid checkIn _ hfind hpend
          (fun c => rfl) (fun c => rfl) (fun c => rfl) (fun c => rfl) hinv
      dsimp only
      split
      · exact hg'
      · exact hg'
    · have hg' : Inv (rejectCheckInUncheckedMut g cid VerifierKind.AI (some v.confidence)
          (some v.reasoning) now) :=
        inv_checkIns_update g cid
          (fun c =>
            { c with
                status := CheckInStatus.REJECTED
                verifiedAt := some now
                verifiedBy := some VerifierKind.AI
                aiConfidence := some v.confidence
                notes := some v.reasoning })
          (fun c => rfl) (fun c => rfl) (fun c => rfl)
          (fun c => by simp) hpendAll hinv
      dsimp only
      split
      · exact hg'
      · exact hg'
    · have hg' : Inv (needsReviewCheckInUncheckedMut g cid VerifierKind.AI (some v.confidence)
          (some v.reasoning)) :=
        inv_checkIns_update g cid
          (fun c =>
            { c with
                status := CheckInStatus.PENDING
                verifiedBy := some VerifierKind.AI
                aiConfidence := some v.confidence
                notes := some v.reasoning })
          (fun c => rfl) (fun c => rfl) (fun c => rfl)
          (fun c => by simp) hpendAll hinv
      dsimp only
      split
      · exact hg'
      · exact hg'
    · exact hinv
theorem inv_updateGameStatus (g : Game) (s : GameState) (hinv : Inv g) :
    Inv (updateGameStatusUncheckedMut g s) :=
  inv_of_eq_fields g _ rfl rfl rfl hinv

theorem inv_addTransaction (g : Game) (t : Transaction) (hinv : Inv g) :
    Inv (addTransactionUncheckedMut g t) :=
  inv_of_eq_fields g _ rfl rfl rfl hinv

theorem inv_addPlayerBonus (g : Game) (pid : Nat) (b : Int) (hinv : Inv g) :
    Inv (addPlayerBonusUncheckedMut g pid b) :=
  inv_players_update g pid (fun p => { p with bonusWon := some b })
    (fun _ => rfl) (fun _ => rfl) hinv

theorem inv_addCheckIn (g : Game) (input : SubmitCheckInInput) (now : Int) (cid : Nat)
    (player : Player)
    (hplayer : getPlayerUncheckedCopy g input.playerId = some player)
    (hcn1 : 1 ≤ input.checkpointNumber)
    (hcn : input.checkpointNumber ≤ g.checkpoints.length)
    (hnp : (getPlayerCheckInsCopy g input.playerId).any (fun c =>
        c.checkpointNumber = input.checkpointNumber ∧
        c.status = CheckInStatus.PENDING) = false)
    (hna : (getPlayerCheckInsCopy g input.playerId).any (fun c =>
        c.checkpointNumber = input.checkpointNumber ∧
        c.status = CheckInStatus.APPROVED) = false)
    (hfresh : ∀ x ∈ g.checkIns, x.id ≠ cid)
    (hinv : Inv g) :
    Inv (addCheckInUncheckedMut g (newCheckInOf input now cid)) := by
  refine ⟨?_, ?_, ?_, hinv.playersNodup, ?_, ?_⟩
  · intro p hp
    show p.checkpointsCompleted =
      approvedCount (g.checkIns ++ [newCheckInOf input now cid]) p.id
    rw [approvedCount_append_nonapproved _ _ _ (by simp [newCheckInOf])]
    exact hinv.counts p hp
  · intro c hc
    rcases List.mem_append.mp hc with hm | hm
    · exact hinv.cnBounds c hm
    · rw [List.mem_singleton] at hm
      subst hm
      exact ⟨hcn1, hcn⟩
  · apply pairwise_append_new g.checkIns _ hinv.pw
    intro a ha hpid hcnn
    have hmemf : a ∈ getPlayerCheckInsCopy g input.playerId := by
      unfold getPlayerCheckInsCopy
      exact List.mem_filter.mpr ⟨ha, by simp [show a.playerId = input.playerId from hpid]⟩
    cases hs : a.status
    · exfalso
      have htrue : (getPlayerCheckInsCopy g input.playerId).any (fun c =>
          c.checkpointNumber = input.checkpointNumber ∧
          c.status = CheckInStatus.PENDING) = true :=
        List.any_eq_true.mpr ⟨a, hmemf,
          by simp [show a.checkpointNumber = input.checkpointNumber from hcnn, hs]⟩
      rw [hnp] at htrue
      cases htrue
    · exfalso
      have htrue : (getPlayerCheckInsCopy g input.playerId).any (fun c =>
          c.checkpointNumber = input.checkpointNumber ∧
          c.status = CheckInStatus.APPROVED) = true :=
        List.any_eq_true.mpr ⟨a, hmemf,
          by simp [show a.checkpointNumber = input.checkpointNumber from hcnn, hs]⟩
      rw [hna] at htrue
      cases htrue
    · rfl
  · intro c hc
    rcases List.mem_append.mp hc with hm | hm
    · exact hinv.ownersPresent c hm
    · rw [List.mem_singleton] at hm
      subst hm
      show input.playerId ∈ g.players.map Player.id
      have hmem := List.mem_of_find?_eq_some hplayer
      have hid : player.id = input.playerId := by simpa using List.find?_some hplayer
      exact hid ▸ List.mem_map_of_mem Player.id hmem
  · show ((g.checkIns ++ [newCheckInOf input now cid]).map CheckIn.id).Nodup
    rw [List.map_append]
    refine List.Nodup.append hinv.checkInsNodup (List.nodup_singleton _) ?_
    intro x hx hy
    simp only [List.map_cons, List.map_nil, List.mem_singleton] at hy
    subst hy
    rcases List.mem_map.mp hx with ⟨c0, hc0, hcid⟩
    exact hfresh c0 hc0 hcid

theorem inv_submitCheckIn (g : Game) (input : SubmitCheckInInput) (now : Int) (cid : Nat)
    (k : Bool) (llm : Except String LLMResponse)
    (hcn1 : 1 ≤ input.checkpointNumber)
    (hfresh : ∀ x ∈ g.checkIns, x.id ≠ cid)
    (hinv : Inv g) :
    Inv (submitCheckIn g input now cid k llm).1 := by
  unfold submitCheckIn
  split
  · exact hinv
  split
  · exact hinv
  rename_i player hplayer
  split
  · exact hinv
  split
  · exact hinv
  rename_i hcnlen
  dsimp only
  split
  · exact hinv
  rename_i hnp'
  split
  · exact hinv
  rename_i hna'
  split
  · exact hinv
  have hnp : (getPlayerCheckInsCopy g input.playerId).any (fun c =>
      c.checkpointNumber = input.checkpointNumber ∧
      c.status = CheckInStatus.PENDING) = false := by
    simpa using hnp'
  have hna : (getPlayerCheckInsCopy g input.playerId).any (fun c =>
      c.checkpointNumber = input.checkpointNumber ∧
      c.status = CheckInStatus.APPROVED) = false := by
    simpa using hna'
  have hcn : input.checkpointNumber ≤ g.checkpoints.length := by omega
  have hg1 := inv_addCheckIn g input now cid player hplayer hcn1 hcn hnp hna hfresh hinv
  split
  · split
    · rename_i g2 e heq
      rcases verifyCheckInWithAI_shape (addCheckInUncheckedMut g (newCheckInOf input now cid))
        (newCheckInOf input now cid).id k llm now with hsh | ⟨c, hok⟩
      · have hg2 : g2 = addCheckInUncheckedMut g (newCheckInOf input now cid) := by
          rw [heq] at hsh
          exact hsh
        rw [hg2]
        rw [deleteCheckIn_addCheckIn_of_fresh g (newCheckInOf input now cid) hfresh]
        exact hinv
      · rw [heq] at hok
        simp at hok
    · rename_i g2 c heq
      have hg2 : Inv g2 := by
        have hh := inv_verifyCheckInWithAI
          (addCheckInUncheckedMut g (newCheckInOf input now cid)) (newCheckInOf input now cid).id
          k llm now hg1
        rw [heq] at hh
        exact hh
      split
      · exact hg2
      · exact hg2
  · split
    · exact hg1
    · exact hg1

theorem inv_endGame (g : Game) (i : EndGameInput) (now : Int) (seed : Nat)
    (hinv : Inv g) : Inv (endGame g i now seed).1 := by
  unfold endGame
  split
  · exact hinv
  split
  · exact hinv
  split
  · exact hinv
  dsimp only
  have h1 : Inv ((nonCashedOutPlayersOf g).foldl
      (fun acc p => (cashOut acc { playerId := p.id } now (seed + p.id)).1) g) :=
    inv_foldl _ (fun gg p hgg => inv_cashOut gg { playerId := p.id } now (seed + p.id) hgg)
      (nonCashedOutPlayersOf g) g hinv
  apply inv_updateGameStatus
  split
  · apply inv_foldl _ ?_ (winnersOf g) _ h1
    intro gg w hgg
    dsimp only
    exact inv_addTransaction _ _ (inv_addPlayerBonus gg w.id (bonusShare g w) hgg)
  · exact h1

theorem inv_createGame (input : CreateGameInput) (gid : Nat) :
    Inv (createGame input gid) := by
  refine ⟨?_, ?_, ?_, ?_, ?_, ?_⟩ <;> simp [createGame]

/-- One invocation of any exposed command, with arbitrary (schema-valid)
parameters; freshness of the generated check-in id mirrors `uuidv4`. -/
inductive Step : Game → Game → Prop
  | join (g : Game) (input : JoinGameInput) (now : Int) (txId : Nat)
      (hmul : 1 ≤ input.multiplier) :
      Step g (joinGame g input now txId).1
  | start (g : Game) (input : StartGameInput) (now : Int) :
      Step g (startGame g input now).1
  | submit (g : Game) (input : SubmitCheckInInput) (now : Int) (checkInId : Nat)
      (apiKeyConfigured : Bool) (llmResult : Except String LLMResponse)
      (hcn : 1 ≤ input.checkpointNumber)
      (hfresh : ∀ c ∈ g.checkIns, c.id ≠ checkInId) :
      Step g (submitCheckIn g input now checkInId apiKeyConfigured llmResult).1
  | verify (g : Game) (input : VerifyCheckInInput) (now : Int) :
      Step g (verifyCheckIn g input now).1
  | cashout (g : Game) (input : CashoutInput) (now : Int) (txId : Nat) :
      Step g (cashOut g input now txId).1
  | finish (g : Game) (input : EndGameInput) (now : Int) (idSeed : Nat) :
      Step g (endGame g input now idSeed).1
  | abort (g : Game) (input : AbortGameInput) (now : Int) (idSeed : Nat) :
      Step g (abortGame g input now idSeed).1

/-- The states reachable from game creation by command invocations. -/
inductive Reachable : Game → Prop
  | created (input : CreateGameInput) (gameId : Nat) (now : Int)
      (hvalid : ValidCreateGameInput now input) :
      Reachable (createGame input gameId)
  | step {g g' : Game} : Reachable g → Step g g' → Reachable g'

theorem inv_step {g g' : Game} (hinv : Inv g) (hs : Step g g') : Inv g' := by
  cases hs with
  | join input now txId hmul => exact inv_joinGame g input now txId hinv
  | start input now => exact inv_startGame g input now hinv
  | submit input now cid k llm hcn hfresh =>
    exact inv_submitCheckIn g input now cid k llm hcn hfresh hinv
  | verify input now => exact inv_verifyCheckIn g input now hinv
  | cashout input now txId => exact inv_cashOut g input now txId hinv
  | finish input now idSeed => exact inv_endGame g input now idSeed hinv
  | abort input now idSeed => exact inv_abortGame g input now idSeed hinv

theorem inv_reachable {g : Game} (hg : Reachable g) : Inv g := by
  induction hg with
  | created input gameId now hvalid => exact inv_createGame input gameId
  | step hr hs ih => exact inv_step ih hs
/-! ### Progress monotonicity (C9) -/

/-- Every player of `g` persists in `g'` (by id) with at least the same
completed-checkpoints count. -/
def ProgressLE (g g' : Game) : Prop :=
  ∀ p ∈ g.players, ∃ p' ∈ g'.players,
    p'.id = p.id ∧ p.checkpointsCompleted ≤ p'.checkpointsCompleted

theorem progressLE_refl (g : Game) : ProgressLE g g :=
  fun p hp => ⟨p, hp, rfl, le_refl _⟩

theorem progressLE_of_players_eq (g g' : Game) (h : g'.players = g.players) :
    ProgressLE g g' :=
  fun p hp => ⟨p, by rw [h]; exact hp, rfl, le_refl _⟩

theorem progressLE_trans {g1 g2 g3 : Game}
    (h12 : ProgressLE g1 g2) (h23 : ProgressLE g2 g3) : ProgressLE g1 g3 := by
  intro p hp
  obtain ⟨q, hq, hqid, hqle⟩ := h12 p hp
  obtain ⟨r, hr, hrid, hrle⟩ := h23 q hq
  exact ⟨r, hr, by rw [hrid, hqid], le_trans hqle hrle⟩

theorem exists_updateFirstPlayer_of_mem (l : List Player) (pid : Nat) (f : Player → Player)
    (hid : ∀ p, (f p).id = p.id)
    (hle : ∀ p, p.checkpointsCompleted ≤ (f p).checkpointsCompleted) :
    ∀ p ∈ l, ∃ p' ∈ updateFirstPlayer l pid f,
      p'.id = p.id ∧ p.checkpointsCompleted ≤ p'.checkpointsCompleted := by
  induction l with
  | nil => simp
  | cons a t ih =>
    intro p hp
    by_cases h : a.id = pid
    · simp only [updateFirstPlayer, if_pos h]
      rcases List.mem_cons.mp hp with rfl | hp2
      · exact ⟨f p, List.mem_cons_self _ _, hid p, hle p⟩
      · exact ⟨p, List.mem_cons.mpr (Or.inr hp2), rfl, le_refl _⟩
    · simp only [updateFirstPlayer, if_neg h]
      rcases List.mem_cons.mp hp with rfl | hp2
      · exact ⟨p, List.mem_cons_self _ _, rfl, le_refl _⟩
      · obtain ⟨p', hp', h1, h2⟩ := ih p hp2
        exact ⟨p', List.mem_cons.mpr (Or.inr hp'), h1, h2⟩

theorem progressLE_of_players_updateFirst (g g' : Game) (pid : Nat) (f : Player → Player)
    (hplayers : g'.players = updateFirstPlayer g.players pid f)
    (hid : ∀ p, (f p).id = p.id)
    (hle : ∀ p, p.checkpointsCompleted ≤ (f p).checkpointsCompleted) :
    ProgressLE g g' := by
  intro p hp
  rw [hplayers]
  exact exists_updateFirstPlayer_of_mem g.players pid f hid hle p hp

theorem progressLE_foldl {α : Type} (f : Game → α → Game)
    (hf : ∀ gg a, ProgressLE gg (f gg a)) :
    ∀ (xs : List α) (gg : Game), ProgressLE gg (xs.foldl f gg) := by
  intro xs
  induction xs with
  | nil => intro gg; exact progressLE_refl gg
  | cons a t ih => intro gg; exact progressLE_trans (hf gg a) (ih (f gg a))

theorem progress_joinGame (g : Game) (i : JoinGameInput) (now : Int) (txId : Nat) :
    ProgressLE g (joinGame g i now txId).1 := by
  unfold joinGame
  split
  · exact progressLE_refl g
  split
  · exact progressLE_refl g
  split
  · exact progressLE_refl g
  split
  · exact progressLE_refl g
  intro p hp
  refine ⟨p, ?_, rfl, le_refl _⟩
  exact List.mem_append.mpr (Or.inl hp)

theorem progress_startGame (g : Game) (i : StartGameInput) (now : Int) :
    ProgressLE g (startGame g i now).1 := by
  unfold startGame
  split
  · exact progressLE_refl g
  split
  · exact progressLE_refl g
  split
  · exact progressLE_refl g
  split
  · exact progressLE_refl g
  exact progressLE_of_players_eq g _ rfl

theorem progress_cashOut (g : Game) (i : CashoutInput) (now : Int) (txId : Nat) :
    ProgressLE g (cashOut g i now txId).1 := by
  unfold cashOut
  split
  · exact progressLE_refl g
  split
  · exact progressLE_refl g
  split
  · exact progressLE_refl g
  exact progressLE_of_players_updateFirst g _ i.playerId
    (fun p => { p with foldedAtCheckpoint := some p.checkpointsCompleted })
    rfl (fun p => rfl) (fun p => le_refl _)

theorem progress_verifyCheckIn (g : Game) (i : VerifyCheckInInput) (now : Int) :
    ProgressLE g (verifyCheckIn g i now).1 := by
  unfold verifyCheckIn
  split
  · exact progressLE_refl g
  rename_i checkIn hci
  split
  · exact progressLE_refl g
  split
  · exact progressLE_refl g
  split
  · exact progressLE_refl g
  split
  · exact progressLE_refl g
  split
  · exact progressLE_refl g
  split
  · exact progressLE_refl g
  split
  · exact progressLE_refl g
  dsimp only
  cases hstv : i.status
  · dsimp only
    split
    · exact progressLE_of_players_updateFirst g _ checkIn.playerId
        (fun p => { p with checkpointsCompleted := p.checkpointsCompleted + 1 })
        rfl (fun p => rfl) (fun p => Nat.le_succ _)
    · exact progressLE_of_players_updateFirst g _ checkIn.playerId
        (fun p => { p with checkpointsCompleted := p.checkpointsCompleted + 1 })
        rfl (fun p => rfl) (fun p => Nat.le_succ _)
  · dsimp only
    split
    · exact progressLE_of_players_eq g _ rfl
    · exact progressLE_of_players_eq g _ rfl

theorem progress_verifyCheckInWithAI (g : Game) (cid : Nat) (k : Bool)
    (llm : Except String LLMResponse) (now : Int) :
    ProgressLE g (verifyCheckInWithAI g cid k llm now).1 := by
  unfold verifyCheckInWithAI
  split
  · exact progressLE_refl g
  split
  · exact progressLE_refl g
  rename_i checkIn hci
  split
  · exact progressLE_refl g
  split
  · exact progressLE_refl g
  split
  · dsimp only
    split
    · exact progressLE_of_players_eq g _ rfl
    · exact progressLE_of_players_eq g _ rfl
  · rename_i v
    split
    · dsimp only
      split
      · exact progressLE_of_players_updateFirst g _ checkIn.playerId
          (fun p => { p with checkpointsCompleted := p.checkpointsCompleted + 1 })
          rfl (fun p => rfl) (fun p => Nat.le_succ _)
      · exact progressLE_of_players_updateFirst g _ checkIn.playerId
          (fun p => { p with checkpointsCompleted := p.checkpointsCompleted + 1 })
          rfl (fun p => rfl) (fun p => Nat.le_succ _)
    · dsimp only
      split
      · exact progressLE_of_players_eq g _ rfl
      · exact progressLE_of_players_eq g _ rfl
    · dsimp only
      split
      · exact progressLE_of_players_eq g _ rfl
      · exact progressLE_of_players_eq g _ rfl
    · exact progressLE_refl g

theorem progress_submitCheckIn (g : Game) (input : SubmitCheckInInput) (now : Int)
    (cid : Nat) (k : Bool) (llm : Except String LLMResponse) :
    ProgressLE g (submitCheckIn g input now cid k llm).1 := by
  unfold submitCheckIn
  split
  · exact progressLE_refl g
  split
  · exact progressLE_refl g
  split
  · exact progressLE_refl g
  split
  · exact progressLE_refl g
  dsimp only
  split
  · exact progressLE_refl g
  split
  · exact progressLE_refl g
  split
  · exact progressLE_refl g
  split
  · split
    · rename_i g2 e heq
      have h1 : ProgressLE g
          (verifyCheckInWithAI (addCheckInUncheckedMut g (newCheckInOf input now cid))
            (newCheckInOf input now cid).id k llm now).1 :=
        progressLE_trans (progressLE_of_players_eq g _ rfl)
          (progress_verifyCheckInWithAI (addCheckInUncheckedMut g (newCheckInOf input now cid))
            (newCheckInOf input now cid).id k llm now)
      rw [heq] at h1
      exact h1
    · rename_i g2 c heq
      have h1 : ProgressLE g
          (verifyCheckInWithAI (addCheckInUncheckedMut g (newCheckInOf input now cid))
            (newCheckInOf input now cid).id k llm now).1 :=
        progressLE_trans (progressLE_of_players_eq g _ rfl)
          (progress_verifyCheckInWithAI (addCheckInUncheckedMut g (newCheckInOf input now cid))
            (newCheckInOf input now cid).id k llm now)
      rw [heq] at h1
      split
      · exact h1
      · exact h1
  · split
    · exact progressLE_of_players_eq g _ rfl
    · exact progressLE_of_players_eq g _ rfl

theorem progress_endGame (g : Game) (i : EndGameInput) (now : Int) (seed : Nat) :
    ProgressLE g (endGame g i now seed).1 := by
  unfold endGame
  split
  · exact progressLE_refl g
  split
  · exact progressLE_refl g
  split
  · exact progressLE_refl g
  dsimp only
  have h1 : ProgressLE g ((nonCashedOutPlayersOf g).foldl
      (fun acc p => (cashOut acc { playerId := p.id } now (seed + p.id)).1) g) :=
    progressLE_foldl _ (fun gg p => progress_cashOut gg { playerId := p.id } now (seed + p.id))
      (nonCashedOutPlayersOf g) g
  refine progressLE_trans ?_ (progressLE_of_players_eq _ _ rfl)
  split
  · refine progressLE_trans h1 (progressLE_foldl _ ?_ (winnersOf g) _)
    intro gg w
    exact progressLE_of_players_updateFirst gg _ w.id
      (fun p => { p with bonusWon := some (bonusShare g w) })
      rfl (fun p => rfl) (fun p => le_refl _)
  · exact h1

theorem progress_abortGame (g : Game) (i : AbortGameInput) (now : Int) (seed : Nat) :
    ProgressLE g (abortGame g i now seed).1 := by
  unfold abortGame
  split
  · exact progressLE_refl g
  split
  · exact progressLE_refl g
  split
  · exact progressLE_refl g
  exact progressLE_of_players_eq g _ rfl

theorem progress_step {g g' : Game} (hs : Step g g') : ProgressLE g g' := by
  cases hs with
  | join input now txId hmul => exact progress_joinGame g input now txId
  | start input now => exact progress_startGame g input now
  | submit input now cid k llm hcn hfresh => exact progress_submitCheckIn g input now cid k llm
  | verify input now => exact progress_verifyCheckIn g input now
  | cashout input now txId => exact progress_cashOut g input now txId
  | finish input now idSeed => exact progress_endGame g input now idSeed
  | abort input now idSeed => exact progress_abortGame g input now idSeed
theorem approvedCount_le_of_inv (g : Game) (hinv : Inv g) (pid : Nat) :
    approvedCount g.checkIns pid ≤ g.checkpoints.length := by
  unfold approvedCount
  have hsub : (g.checkIns.filter (fun c =>
      c.playerId = pid ∧ c.status = CheckInStatus.APPROVED)).Sublist g.checkIns :=
    List.filter_sublist _
  have hpw0 : (g.checkIns.filter (fun c =>
      c.playerId = pid ∧ c.status = CheckInStatus.APPROVED)).Pairwise earlierRejected :=
    List.Pairwise.sublist hsub hinv.pw
  have hpw2 : (g.checkIns.filter (fun c =>
      c.playerId = pid ∧ c.status = CheckInStatus.APPROVED)).Pairwise
      (fun a b => a.checkpointNumber ≠ b.checkpointNumber) := by
    refine hpw0.imp_of_mem ?_
    intro a b ha hb hr hcne
    have ha2 := List.mem_filter.mp ha
    have hb2 := List.mem_filter.mp hb
    have ha3 : a.playerId = pid ∧ a.status = CheckInStatus.APPROVED := by
      simpa using ha2.2
    have hb3 : b.playerId = pid ∧ b.status = CheckInStatus.APPROVED := by
      simpa using hb2.2
    have := hr (by rw [ha3.1, hb3.1]) hcne
    rw [ha3.2] at this
    exact absurd this (by decide)
  have hnd : ((g.checkIns.filter (fun c =>
      c.playerId = pid ∧ c.status = CheckInStatus.APPROVED)).map
      CheckIn.checkpointNumber).Nodup :=
    List.pairwise_map.mpr hpw2
  have hsubset : ((g.checkIns.filter (fun c =>
      c.playerId = pid ∧ c.status = CheckInStatus.APPROVED)).map
      CheckIn.checkpointNumber).toFinset ⊆ Finset.Icc 1 g.checkpoints.length := by
    intro x hx
    rw [List.mem_toFinset] at hx
    obtain ⟨c, hc, rfl⟩ := List.mem_map.mp hx
    exact Finset.mem_Icc.mpr (hinv.cnBounds c (List.mem_filter.mp hc).1)
  calc (g.checkIns.filter (fun c =>
        c.playerId = pid ∧ c.status = CheckInStatus.APPROVED)).length
      = ((g.checkIns.filter (fun c =>
          c.playerId = pid ∧ c.status = CheckInStatus.APPROVED)).map
          CheckIn.checkpointNumber).length := by rw [List.length_map]
    _ = ((g.checkIns.filter (fun c =>
          c.playerId = pid ∧ c.status = CheckInStatus.APPROVED)).map
          CheckIn.checkpointNumber).toFinset.card := (List.toFinset_card_of_nodup hnd).symm
    _ ≤ (Finset.Icc 1 g.checkpoints.length).card := Finset.card_le_card hsubset
    _ = g.checkpoints.length := by rw [Nat.card_Icc]; omega

theorem completed_le_len_of_inv (g : Game) (hinv : Inv g) :
    ∀ p ∈ g.players, p.checkpointsCompleted ≤ g.checkpoints.length := by
  intro p hp
  rw [hinv.counts p hp]
  exact approvedCount_le_of_inv g hinv p.id
theorem reachable_tStarted : Reachable tStarted :=
  Reachable.step
    (Reachable.step
      (Reachable.step
        (Reachable.created cfgOne 100 0
          ⟨by decide, by decide, by decide, by decide, by decide, by decide, by decide,
           by decide, by decide, by decide, by decide, by decide, by decide, by simp [cfgOne]⟩)
        (Step.join tCreated { playerId := 11, playerName := "A", multiplier := 1 } 1 201
          (by decide)))
      (Step.join tJoinA { playerId := 12, playerName := "B", multiplier := 1 } 2 202
        (by decide)))
    (Step.start tJoinB { gameMasterId := 1 } 20)

theorem reachable_tApproved : Reachable tApproved :=
  Reachable.step
    (Reachable.step reachable_tStarted
      (Step.submit tStarted { playerId := 12, checkpointNumber := 1, proof := "pf" }
        100 301 false (Except.error "unused") (by decide) (by decide)))
    (Step.verify tSubmitted
      { checkInId := 301, gameMasterId := 1, verifiedBy := VerifierKind.GAMEMASTER,
        status := VerifyStatus.APPROVED, notes := none } 200)

/-- C9: along any reachable history, one further command invocation never
decreases any player's `checkpointsCompleted` (players are never removed,
and the only writer, `increasePlayerProgressUncheckedMut`, increments), and
in both the pre- and post-states every player's count is at most the number
of configured checkpoints (each `APPROVED` check-in consumes a distinct
checkpoint number between 1 and the configured count). -/
theorem checkpointsCompleted_monotone_and_bounded (g g' : Game)
    (hreach : Reachable g) (hstep : Step g g') :
    (∀ p ∈ g.players, ∀ p' ∈ g'.players, p'.id = p.id →
      p.checkpointsCompleted ≤ p'.checkpointsCompleted) ∧
    (∀ p ∈ g.players, p.checkpointsCompleted ≤ g.checkpoints.length) ∧
    (∀ p' ∈ g'.players, p'.checkpointsCompleted ≤ g'.checkpoints.length) := by
  have hinv := inv_reachable hreach
  have hinv' := inv_reachable (Reachable.step hreach hstep)
  refine ⟨?_, completed_le_len_of_inv g hinv, completed_le_len_of_inv g' hinv'⟩
  intro p hp p' hp' hid
  obtain ⟨q, hq, hqid, hqle⟩ := progress_step hstep p hp
  have hpq : p' = q :=
    List.inj_on_of_nodup_map hinv'.playersNodup hp' hq (by rw [hid, hqid])
  rw [hpq]
  exact hqle

theorem checkpointsCompleted_monotone_and_bounded_witness :
    (∀ p ∈ tApproved.players,
      ∀ p' ∈ (endGame tApproved { gameMasterId := 1 } 400 500).1.players,
      p'.id = p.id → p.checkpointsCompleted ≤ p'.checkpointsCompleted) ∧
    (∀ p ∈ tApproved.players,
      p.checkpointsCompleted ≤ tApproved.checkpoints.length) ∧
    (∀ p' ∈ (endGame tApproved { gameMasterId := 1 } 400 500).1.players,
      p'.checkpointsCompleted ≤
        (endGame tApproved { gameMasterId := 1 } 400 500).1.checkpoints.length) :=
  checkpointsCompleted_monotone_and_bounded tApproved
    (endGame tApproved { gameMasterId := 1 } 400 500).1
    reachable_tApproved
    (Step.finish tApproved { gameMasterId := 1 } 400 500)
/-! ### The resubmission gate (C8) -/

/-- The most recent check-in a player has for a checkpoint: check-ins are
only ever appended, so store order is submission order and the last
filtered element is the latest. -/
def latestCheckInFor (g : Game) (pid cn : Nat) : Option CheckIn :=
  ((getPlayerCheckInsCopy g pid).filter (fun c => c.checkpointNumber = cn)).getLast?

theorem rejected_of_rejected_last (l : List CheckIn)
    (hpw : l.Pairwise (fun a _ => a.status = CheckInStatus.REJECTED))
    (hlast : ∀ c, l.getLast? = some c → c.status = CheckInStatus.REJECTED) :
    ∀ c ∈ l, c.status = CheckInStatus.REJECTED := by
  induction l with
  | nil => intro c hc; cases hc
  | cons a t ih =>
    rcases List.pairwise_cons.mp hpw with ⟨ha, ht⟩
    intro c hc
    cases t with
    | nil =>
      rw [List.mem_singleton] at hc
      subst hc
      exact hlast c (by simp)
    | cons b t2 =>
      rcases List.mem_cons.mp hc with rfl | hc2
      · exact ha b (List.mem_cons_self b t2)
      · refine ih ht ?_ c hc2
        intro c' hc'
        apply hlast
        rw [List.getLast?_cons_cons]
        exact hc'

theorem resubmission_filter_rejected (g : Game) (hinv : Inv g) (pid cn : Nat)
    (hlast : ∀ c, latestCheckInFor g pid cn = some c →
      c.status = CheckInStatus.REJECTED) :
    ∀ c ∈ (getPlayerCheckInsCopy g pid).filter (fun c => c.checkpointNumber = cn),
      c.status = CheckInStatus.REJECTED := by
  have hsub : ((getPlayerCheckInsCopy g pid).filter
      (fun c => c.checkpointNumber = cn)).Sublist g.checkIns := by
    unfold getPlayerCheckInsCopy
    exact (List.filter_sublist _).trans (List.filter_sublist _)
  have hpw0 : ((getPlayerCheckInsCopy g pid).filter
      (fun c => c.checkpointNumber = cn)).Pairwise earlierRejected :=
    List.Pairwise.sublist hsub hinv.pw
  have hpw : ((getPlayerCheckInsCopy g pid).filter
      (fun c => c.checkpointNumber = cn)).Pairwise
      (fun a _ => a.status = CheckInStatus.REJECTED) := by
    refine hpw0.imp_of_mem ?_
    intro a b ha hb hr
    have ha2 := List.mem_filter.mp ha
    have hb2 := List.mem_filter.mp hb
    have ha3 := List.mem_filter.mp ha2.1
    have hb3 := List.mem_filter.mp hb2.1
    have hap : a.playerId = pid := by simpa using ha3.2
    have hbp : b.playerId = pid := by simpa using hb3.2
    have hacn : a.checkpointNumber = cn := by simpa using ha2.2
    have hbcn : b.checkpointNumber = cn := by simpa using hb2.2
    exact hr (by rw [hap, hbp]) (by rw [hacn, hbcn])
  exact rejected_of_rejected_last _ hpw (fun c hc => hlast c hc)

theorem submitCheckIn_pending_blocks (g : Game) (input : SubmitCheckInInput)
    (now : Int) (cid : Nat) (k : Bool) (llm : Except String LLMResponse) (player : Player)
    (hstate : g.state = GameState.IN_PROGRESS)
    (hfind : getPlayerUncheckedCopy g input.playerId = some player)
    (hnf : player.foldedAtCheckpoint = none)
    (hcn : input.checkpointNumber ≤ g.checkpoints.length)
    (hp : (getPlayerCheckInsCopy g input.playerId).any (fun c =>
        c.checkpointNumber = input.checkpointNumber ∧
        c.status = CheckInStatus.PENDING) = true) :
    submitCheckIn g input now cid k llm =
      (g, Except.error GameErr.CHECKPOINT_ALREADY_PENDING) := by
  unfold submitCheckIn
  rw [hfind]
  simp only [hstate, hnf, ne_eq, not_true_eq_false, if_false, ite_true,
    ite_false, Bool.false_eq_true, not_false_eq_true, reduceCtorEq]
  rw [if_neg (by omega), if_pos hp]

theorem submitCheckIn_approved_blocks (g : Game) (input : SubmitCheckInInput)
    (now : Int) (cid : Nat) (k : Bool) (llm : Except String LLMResponse) (player : Player)
    (hstate : g.state = GameState.IN_PROGRESS)
    (hfind : getPlayerUncheckedCopy g input.playerId = some player)
    (hnf : player.foldedAtCheckpoint = none)
    (hcn : input.checkpointNumber ≤ g.checkpoints.length)
    (hnp : (getPlayerCheckInsCopy g input.playerId).any (fun c =>
        c.checkpointNumber = input.checkpointNumber ∧
        c.status = CheckInStatus.PENDING) = false)
    (ha : (getPlayerCheckInsCopy g input.playerId).any (fun c =>
        c.checkpointNumber = input.checkpointNumber ∧
        c.status = CheckInStatus.APPROVED) = true) :
    submitCheckIn g input now cid k llm =
      (g, Except.error GameErr.CHECKPOINT_ALREADY_COMPLETED) := by
  unfold submitCheckIn
  rw [hfind]
  simp only [hstate, hnf, ne_eq, not_true_eq_false, if_false, ite_true,
    ite_false, Bool.false_eq_true, not_false_eq_true, reduceCtorEq]
  rw [if_neg (by omega), if_neg (by rw [hnp]; simp), if_pos ha]

/-- C8 (amended): the blocking half of the gate holds as claimed, but the
unconditional success half holds only for manual (game-master-verified)
games: on AI games the inline AI verification can still fail the
submission (see the counterexample theorem). In a reachable state, a player
whose latest check-in for an unexpired, in-range checkpoint is `REJECTED`
(or who has none) and who is present, unfolded, in an `IN_PROGRESS`
game: resubmitting with an existing `PENDING` or `APPROVED` check-in for
that checkpoint always fails without changing the game, and in a
`GAMEMASTER`-verification game the submission succeeds, returning the
new `PENDING` check-in. -/
theorem submitCheckIn_resubmission_gate (g : Game) (input : SubmitCheckInInput)
    (now : Int) (cid : Nat) (k : Bool) (llm : Except String LLMResponse) (player : Player)
    (hreach : Reachable g)
    (hstate : g.state = GameState.IN_PROGRESS)
    (hplayer : getPlayerUncheckedCopy g input.playerId = some player)
    (hnf : player.foldedAtCheckpoint = none)
    (hcn : input.checkpointNumber ≤ g.checkpoints.length)
    (hexp : ¬ ((g.checkpoints.getD (input.checkpointNumber - 1) default).expiryDate < now))
    (hfresh : ∀ x ∈ g.checkIns, x.id ≠ cid) :
    ((∃ c ∈ getPlayerCheckInsCopy g input.playerId,
        c.checkpointNumber = input.checkpointNumber ∧
        (c.status = CheckInStatus.PENDING ∨ c.status = CheckInStatus.APPROVED)) →
      ∃ e, submitCheckIn g input now cid k llm = (g, Except.error e)) ∧
    ((∀ c, latestCheckInFor g input.playerId input.checkpointNumber = some c →
        c.status = CheckInStatus.REJECTED) →
      g.verificationMethod = VerificationMethod.GAMEMASTER →
      (submitCheckIn g input now cid k llm).2 =
        Except.ok (newCheckInOf input now cid)) := by
  constructor
  · rintro ⟨c0, hc0, hcn0, hstat⟩
    by_cases hp : (getPlayerCheckInsCopy g input.playerId).any (fun c =>
        c.checkpointNumber = input.checkpointNumber ∧
        c.status = CheckInStatus.PENDING) = true
    · exact ⟨GameErr.CHECKPOINT_ALREADY_PENDING,
        submitCheckIn_pending_blocks g input now cid k llm player hstate hplayer hnf hcn hp⟩
    · have hnp : (getPlayerCheckInsCopy g input.playerId).any (fun c =>
          c.checkpointNumber = input.checkpointNumber ∧
          c.status = CheckInStatus.PENDING) = false := by
        simpa using hp
      have hc0a : c0.status = CheckInStatus.APPROVED := by
        rcases hstat with h | h
        · exact absurd (List.any_eq_true.mpr ⟨c0, hc0, by simp [hcn0, h]⟩) hp
        · exact h
      have ha : (getPlayerCheckInsCopy g input.playerId).any (fun c =>
          c.checkpointNumber = input.checkpointNumber ∧
          c.status = CheckInStatus.APPROVED) = true :=
        List.any_eq_true.mpr ⟨c0, hc0, by simp [hcn0, hc0a]⟩
      exact ⟨GameErr.CHECKPOINT_ALREADY_COMPLETED,
        submitCheckIn_approved_blocks g input now cid k llm player hstate hplayer hnf hcn hnp ha⟩
  · intro hlat hvm
    have hrej := resubmission_filter_rejected g (inv_reachable hreach)
      input.playerId input.checkpointNumber hlat
    have hnp : (getPlayerCheckInsCopy g input.playerId).any (fun c =>
        c.checkpointNumber = input.checkpointNumber ∧
        c.status = CheckInStatus.PENDING) = false := by
      rw [List.any_eq_false]
      intro c hc
      simp only [decide_eq_true_eq, not_and]
      intro hcn2
      have := hrej c (List.mem_filter.mpr ⟨hc, by simpa using hcn2⟩)
      rw [this]
      simp
    have hna : (getPlayerCheckInsCopy g input.playerId).any (fun c =>
        c.checkpointNumber = input.checkpointNumber ∧
        c.status = CheckInStatus.APPROVED) = false := by
      rw [List.any_eq_false]
      intro c hc
      simp only [decide_eq_true_eq, not_and]
      intro hcn2
      have := hrej c (List.mem_filter.mpr ⟨hc, by simpa using hcn2⟩)
      rw [this]
      simp
    rw [submitCheckIn_manual_ok g input now cid k llm player hstate hplayer hnf hcn
      hnp hna hexp (by simp [hvm]) hfresh]
/-- The same minimal configuration with AI verification enabled. -/
def cfgAI : CreateGameInput :=
  { cfgOne with
      verificationMethod := VerificationMethod.AI
      aiVerification := some { prompt := "criteria", trustThreshold := 80 } }

def uCreated : Game := createGame cfgAI 600

def uJoinA : Game :=
  (joinGame uCreated { playerId := 11, playerName := "A", multiplier := 1 } 1 601).1

def uJoinB : Game :=
  (joinGame uJoinA { playerId := 12, playerName := "B", multiplier := 1 } 2 602).1

def uStarted : Game := (startGame uJoinB { gameMasterId := 1 } 20).1

theorem reachable_uStarted : Reachable uStarted :=
  Reachable.step
    (Reachable.step
      (Reachable.step
        (Reachable.created cfgAI 600 0
          ⟨by decide, by decide, by decide, by decide, by decide, by decide, by decide,
           by decide, by decide, by decide, by decide, by decide, by decide,
           by simp [cfgAI, cfgOne]⟩)
        (Step.join uCreated { playerId := 11, playerName := "A", multiplier := 1 } 1 601
          (by decide)))
      (Step.join uJoinA { playerId := 12, playerName := "B", multiplier := 1 } 2 602
        (by decide)))
    (Step.start uJoinB { gameMasterId := 1 } 20)

/-- C8 counterexample: in the reachable AI-verification game `uStarted`,
player 11 has no check-in at all for checkpoint 1 (so their latest one is
certainly not `PENDING` or `APPROVED`), the game is `IN_PROGRESS`, the
player is present and unfolded, the checkpoint is in range and unexpired —
yet the submission fails: the inline AI verification returns the provider's
`INVALID_SUBMISSION` verdict as an error and the check-in is rolled back,
contradicting the claim's "submitting after a `REJECTED` one (or none)
always succeeds". -/
theorem submitCheckIn_after_rejected_can_fail :
    Reachable uStarted ∧
    (uStarted.state = GameState.IN_PROGRESS ∧
     (getPlayerUncheckedCopy uStarted 11).map Player.foldedAtCheckpoint = some none ∧
     uStarted.checkpoints.length = 1 ∧
     latestCheckInFor uStarted 11 1 = none ∧
     ¬ ((uStarted.checkpoints.getD 0 default).expiryDate < 100) ∧
     submitCheckIn uStarted { playerId := 11, checkpointNumber := 1, proof := "pf" }
        100 603 true
        (Except.ok { decision := LLMDecision.INVALID_SUBMISSION,
                     reasoning := "bad", confidence := 1 }) =
      (uStarted, Except.error (GameErr.INVALID_SUBMISSION "bad"))) :=
  ⟨reachable_uStarted, by decide⟩

theorem submitCheckIn_resubmission_gate_witness :
    ((∃ c ∈ getPlayerCheckInsCopy tStarted 11, c.checkpointNumber = 1 ∧
        (c.status = CheckInStatus.PENDING ∨ c.status = CheckInStatus.APPROVED)) →
      ∃ e, submitCheckIn tStarted { playerId := 11, checkpointNumber := 1, proof := "pf" }
        100 777 false (Except.error "unused") = (tStarted, Except.error e)) ∧
    ((∀ c, latestCheckInFor tStarted 11 1 = some c →
        c.status = CheckInStatus.REJECTED) →
      tStarted.verificationMethod = VerificationMethod.GAMEMASTER →
      (submitCheckIn tStarted { playerId := 11, checkpointNumber := 1, proof := "pf" }
        100 777 false (Except.error "unused")).2 =
        Except.ok (newCheckInOf { playerId := 11, checkpointNumber := 1, proof := "pf" }
          100 777)) :=
  submitCheckIn_resubmission_gate tStarted
    { playerId := 11, checkpointNumber := 1, proof := "pf" } 100 777 false
    (Except.error "unused")
    { id := 11, name := "A", multiplier := 1, joinedAt := 1, checkpointsCompleted := 0 }
    reachable_tStarted (by decide) (by decide) (by decide) (by decide) (by decide)
    (by decide)
end ComGame
